import Mathlib

/-!
# Receive-adapter translator of the RabbitMQ source

A shallow embedding of `MakeReceiveAdapter`
(`pkg/reconciler/source/resources/receive_adapter.go`) and of the library
functions it calls, followed by theorems about the deployment it returns.

Conventions of the embedding:

* a Go `string` is a Lean `String`, one `Char` per byte (exact on the ASCII
  strings Kubernetes admits as object names and UIDs); `len` is `String.length`;
* a Go pointer is an `Option`; dereferencing `nil` panics, and a function that
  can panic returns `Option`, `none` standing for the panic;
* Go integers are `Int`/`Nat`; where 64-bit arithmetic can wrap the wrap is explicit;
* a Go `map[string]string` is an association list.
-/

/-! ## Go standard library: `strconv`, `crypto/md5`, `fmt`, `time` -/

namespace strconv

/-- Go `strconv.FormatInt(i, base)`: the digits of the magnitude of `i` in `base`,
after a minus sign when `i` is negative. The translator calls it with base 10 only. -/
def FormatInt (i : Int) (base : Nat) : String :=
  if i < 0 then "-" ++ String.mk (Nat.toDigits base i.natAbs)
  else String.mk (Nat.toDigits base i.natAbs)

/-- Go `strconv.Itoa(i)`, which is `FormatInt(int64(i), 10)`. -/
def Itoa (i : Int) : String := FormatInt i 10

/-- Go `strconv.FormatBool`. -/
def FormatBool (b : Bool) : String := if b then "true" else "false"

end strconv

namespace md5

def init0 : Nat := 0x67452301

def init1 : Nat := 0xefcdab89

def init2 : Nat := 0x98badcfe

def init3 : Nat := 0x10325476

/-- Per-round left-rotation amounts of MD5 (RFC 1321). -/
def shifts : List Nat :=
  [7, 12, 17, 22, 7, 12, 17, 22, 7, 12, 17, 22, 7, 12, 17, 22,
   5, 9, 14, 20, 5, 9, 14, 20, 5, 9, 14, 20, 5, 9, 14, 20,
   4, 11, 16, 23, 4, 11, 16, 23, 4, 11, 16, 23, 4, 11, 16, 23,
   6, 10, 15, 21, 6, 10, 15, 21, 6, 10, 15, 21, 6, 10, 15, 21]

/-- The sine table of MD5: entry `i` is the integer part of `2^32 * |sin (i + 1)|`. -/
def table : List Nat :=
  [0xd76aa478, 0xe8c7b756, 0x242070db, 0xc1bdceee,
   0xf57c0faf, 0x4787c62a, 0xa8304613, 0xfd469501,
   0x698098d8, 0x8b44f7af, 0xffff5bb1, 0x895cd7be,
   0x6b901122, 0xfd987193, 0xa679438e, 0x49b40821,
   0xf61e2562, 0xc040b340, 0x265e5a51, 0xe9b6c7aa,
   0xd62f105d, 0x02441453, 0xd8a1e681, 0xe7d3fbc8,
   0x21e1cde6, 0xc33707d6, 0xf4d50d87, 0x455a14ed,
   0xa9e3e905, 0xfcefa3f8, 0x676f02d9, 0x8d2a4c8a,
   0xfffa3942, 0x8771f681, 0x6d9d6122, 0xfde5380c,
   0xa4beea44, 0x4bdecfa9, 0xf6bb4b60, 0xbebfbc70,
   0x289b7ec6, 0xeaa127fa, 0xd4ef3085, 0x04881d05,
   0xd9d4d039, 0xe6db99e5, 0x1fa27cf8, 0xc4ac5665,
   0xf4292244, 0x432aff97, 0xab9423a7, 0xfc93a039,
   0x655b59c3, 0x8f0ccc92, 0xffeff47d, 0x85845dd1,
   0x6fa87e4f, 0xfe2ce6e0, 0xa3014314, 0x4e0811a1,
   0xf7537e82, 0xbd3af235, 0x2ad7d2bb, 0xeb86d391]

/-- Addition of `uint32` values. -/
def add32 (x y : Nat) : Nat := (x + y) % 2 ^ 32

/-- Bitwise complement of a `uint32`. -/
def not32 (x : Nat) : Nat := (x % 2 ^ 32) ^^^ 0xffffffff

/-- Left rotation of a `uint32` by `k` bits (`bits.RotateLeft32`). -/
def rotl32 (x k : Nat) : Nat :=
  ((x <<< k) % 2 ^ 32) ||| ((x % 2 ^ 32) >>> (32 - k))

/-- MD5 padding: a `0x80` byte, zero bytes up to 56 modulo 64, then the bit
length of the message as eight little-endian bytes. -/
def pad (msg : List Nat) : List Nat :=
  let bits := (8 * msg.length) % 2 ^ 64
  msg ++ [0x80] ++ List.replicate ((119 - msg.length % 64) % 64) 0
    ++ (List.range 8).map (fun i => (bits >>> (8 * i)) % 256)

/-- Little-endian 32-bit word number `g` of a 64-byte block. -/
def word (block : List Nat) (g : Nat) : Nat :=
  block.getD (4 * g) 0 + block.getD (4 * g + 1) 0 * 2 ^ 8
    + block.getD (4 * g + 2) 0 * 2 ^ 16 + block.getD (4 * g + 3) 0 * 2 ^ 24

/-- The four chaining words of MD5. -/
structure State where
  a : Nat
  b : Nat
  c : Nat
  d : Nat
deriving Repr, DecidableEq

/-- One of the 64 operations of the MD5 compression function. -/
def round (block : List Nat) (s : State) (i : Nat) : State :=
  let fg : Nat × Nat :=
    if i < 16 then ((s.b &&& s.c) ||| (not32 s.b &&& s.d), i)
    else if i < 32 then ((s.d &&& s.b) ||| (not32 s.d &&& s.c), (5 * i + 1) % 16)
    else if i < 48 then (s.b ^^^ s.c ^^^ s.d, (3 * i + 5) % 16)
    else (s.c ^^^ (s.b ||| not32 s.d), (7 * i) % 16)
  let f := add32 (add32 (add32 fg.1 s.a) (table.getD i 0)) (word block fg.2)
  { a := s.d, b := add32 s.b (rotl32 f (shifts.getD i 0)), c := s.b, d := s.c }

/-- The MD5 compression function on one 64-byte block. -/
def blockStep (s : State) (block : List Nat) : State :=
  let t := (List.range 64).foldl (round block) s
  { a := add32 s.a t.a, b := add32 s.b t.b, c := add32 s.c t.c, d := add32 s.d t.d }

/-- The four little-endian bytes of a `uint32`. -/
def le32 (x : Nat) : List Nat :=
  [x % 256, (x >>> 8) % 256, (x >>> 16) % 256, (x >>> 24) % 256]

/-- Go `md5.Sum`: the sixteen-byte MD5 digest (RFC 1321) of a byte string. -/
def Sum (msg : List Nat) : List Nat :=
  let padded := pad msg
  let s := (List.range (padded.length / 64)).foldl
    (fun s i => blockStep s ((padded.drop (64 * i)).take 64))
    { a := init0, b := init1, c := init2, d := init3 }
  le32 s.a ++ le32 s.b ++ le32 s.c ++ le32 s.d

end md5

namespace fmt

/-- One lower-case hexadecimal digit. -/
def hexDigit (n : Nat) : Char := "0123456789abcdef".data.getD n '0'

/-- Go `fmt.Sprintf("%x", bytes)`: two lower-case hexadecimal digits per byte. -/
def hexBytes (bs : List Nat) : List Char :=
  bs.flatMap (fun b => [hexDigit (b / 16 % 16), hexDigit (b % 16)])

end fmt

/-- The bytes of a Go string. -/
def stringBytes (s : List Char) : List Nat := s.map (fun c => c.toNat % 256)

/-- The expression `fmt.Sprintf("%x", md5.Sum([]byte(s)))` of `kmeta.ChildName`. -/
def md5hex (s : List Char) : List Char := fmt.hexBytes (md5.Sum (stringBytes s))

namespace time

/-- Go `time.Duration`: a signed 64-bit count of nanoseconds. -/
abbrev Duration := Int

def Microsecond : Nat := 1000

def Millisecond : Nat := 1000000

def Second : Nat := 1000000000

/-- Reduction of an integer to the `int64` range (two's-complement wrap-around). -/
def wrap64 (x : Int) : Int := (x + 2 ^ 63) % 2 ^ 64 - 2 ^ 63

/-- The decimal digit character of `d % 10`. -/
def digit (d : Nat) : Char := Char.ofNat (48 + d % 10)

/-- State of the loop of `fmtFrac`: the buffer, the remaining value, and whether
a non-zero digit has been seen. -/
structure FracState where
  buf : List Char
  v : Nat
  print : Bool

/-- Go `time.fmtFrac`: writes the fraction of `v / 10^prec` in front of `buf`,
omitting trailing zeros (and the point when the fraction is zero); returns the
buffer and `v / 10^prec`. -/
def fmtFrac (buf : List Char) (v : Nat) (prec : Nat) : List Char × Nat :=
  let st := (List.range prec).foldl
    (fun (st : FracState) _ =>
      let d := st.v % 10
      let pr := st.print || d != 0
      { buf := if pr then digit d :: st.buf else st.buf, v := st.v / 10, print := pr })
    { buf := buf, v := v, print := false }
  (if st.print then '.' :: st.buf else st.buf, st.v)

/-- The loop of `time.fmtInt`; a `uint64` has at most twenty decimal digits. -/
def fmtIntLoop : Nat → List Char → Nat → List Char
  | 0, buf, _ => buf
  | fuel + 1, buf, v => if v = 0 then buf else fmtIntLoop fuel (digit v :: buf) (v / 10)

/-- Go `time.fmtInt`: writes the decimal form of `v` in front of `buf`. -/
def fmtInt (buf : List Char) (v : Nat) : List Char :=
  if v = 0 then '0' :: buf else fmtIntLoop 20 buf v

/-- Go `time.Duration.String`: a string such as `72h3m0.5s`; a duration below
one second uses a smaller unit (`ns`, `µs`, `ms`), and zero prints as `0s`. -/
def Duration.String (d : Duration) : String :=
  let u := d.natAbs
  let body : List Char :=
    if u < Second then
      if u = 0 then ['0', 's']
      else if u < Microsecond then fmtInt ['n', 's'] u
      else if u < Millisecond then
        let r := fmtFrac ['µ', 's'] u 3
        fmtInt r.1 r.2
      else
        let r := fmtFrac ['m', 's'] u 6
        fmtInt r.1 r.2
    else
      let r := fmtFrac ['s'] u 9
      let buf := fmtInt r.1 (r.2 % 60)
      let mins := r.2 / 60
      if mins > 0 then
        let buf := fmtInt ('m' :: buf) (mins % 60)
        let hours := mins / 60
        if hours > 0 then fmtInt ('h' :: buf) hours else buf
      else buf
  String.mk (if d < 0 then '-' :: body else body)

end time

/-! ## Third-party helpers: `github.com/rickb777/date/period`, `knative.dev/pkg/kmeta` -/

namespace period

/-- A period of the `period` package: six fields, each a fixed-point number
counted in tenths (`seconds = 10` is one second). -/
structure Period where
  years : Int := 0
  months : Int := 0
  days : Int := 0
  hours : Int := 0
  minutes : Int := 0
  seconds : Int := 0
deriving Repr, DecidableEq

/-- Go `strings.IndexByte(s, mark)`, returned as a cut: what precedes the first
`mark` and what follows it; `none` when `mark` does not occur (index -1). -/
def cut (mark : Char) : List Char → Option (List Char × List Char)
  | [] => none
  | c :: cs =>
    if c = mark then some ([], cs)
    else
      match cut mark cs with
      | some r => some (c :: r.1, r.2)
      | none => none

/-- Go `strconv.ParseUint(s, 10, 64)`: a non-empty string of decimal digits whose
value fits 64 bits; `none` stands for the error. -/
def parseUint (s : List Char) : Option Nat :=
  if s = [] then none
  else if s.all Char.isDigit then
    let v := s.foldl (fun n c => 10 * n + (c.toNat - 48)) 0
    if v < 2 ^ 64 then some v else none
  else none

/-- Go `strconv.ParseInt(s, 10, 64)`: an optional sign and decimal digits, the value
within the `int64` range; `none` stands for the error. -/
def parseInt : List Char → Option Int
  | [] => none
  | '+' :: rest =>
    match parseUint rest with
    | some un => if un < 2 ^ 63 then some (un : Int) else none
    | none => none
  | '-' :: rest =>
    match parseUint rest with
    | some un => if un ≤ 2 ^ 63 then some (-(un : Int)) else none
    | none => none
  | c :: rest =>
    match parseUint (c :: rest) with
    | some un => if un < 2 ^ 63 then some (un : Int) else none
    | none => none

/-- The helper `parseDecimalFixedPoint` of the package: the number before a
designator as a count of tenths. The first `.` (or, without one, the first `,`) is
the decimal mark; the digit after it is kept and what follows that digit is
dropped; without a digit after the mark, or without a mark, the tenths are zero. -/
def parseDecimalFixedPoint (s : List Char) : Option Int :=
  let dec := match cut '.' s with
    | some r => some r
    | none => cut ',' s
  match dec with
  | some (whole, frac) =>
    if frac.length + 1 > 1 then parseInt (whole ++ frac.take 1)
    else parseInt (whole ++ frac ++ ['0'])
  | none => parseInt (s ++ ['0'])

/-- The reader's state: what is left to read, and whether a field has been read. -/
structure parseState where
  pcopy : List Char
  ok : Bool
deriving Repr, DecidableEq

/-- The helper `parseField` of the package: when `mark` occurs after at least one
character, what precedes it is read as a number and the state moves past the mark;
otherwise the field is zero and the state is unchanged. `none` stands for the error
of a malformed number. -/
def parseField (st : parseState) (mark : Char) : Option (Int × parseState) :=
  match cut mark st.pcopy with
  | some (before, after) =>
    if before ≠ [] then
      match parseDecimalFixedPoint before with
      | some r => some (r, { pcopy := after, ok := true })
      | none => none
    else some (0, st)
  | none => some (0, st)

/-- The 64-bit working form of a period in the package: six fields in tenths and a
sign. -/
structure period64 where
  years : Int := 0
  months : Int := 0
  days : Int := 0
  hours : Int := 0
  minutes : Int := 0
  seconds : Int := 0
  neg : Bool := false
deriving Repr, DecidableEq

/-- The time part of a period (what follows `T`): hours, minutes and seconds in
that order, and nothing left over. -/
def parseTime (time : List Char) : Option (Int × Int × Int × Bool) :=
  match parseField { pcopy := time, ok := false } 'H' with
  | none => none
  | some (hours, st) =>
    match parseField st 'M' with
    | none => none
    | some (minutes, st) =>
      match parseField st 'S' with
      | none => none
      | some (seconds, st) =>
        if st.pcopy ≠ [] then none else some (hours, minutes, seconds, st.ok)

/-- The date part of a period (what precedes `T`): years, months, weeks and days in
that order, and nothing left over; a week counts as seven days. -/
def parseDate (date : List Char) (ok : Bool) : Option (Int × Int × Int × Bool) :=
  match parseField { pcopy := date, ok := ok } 'Y' with
  | none => none
  | some (years, st) =>
    match parseField st 'M' with
    | none => none
    | some (months, st) =>
      match parseField st 'W' with
      | none => none
      | some (weeks, st) =>
        match parseField st 'D' with
        | none => none
        | some (days, st) =>
          if st.pcopy ≠ [] then none
          else some (years, months, time.wrap64 (time.wrap64 (weeks * 7) + days), st.ok)

/-- What follows the `P` of a period string: the time part after the first `T`, if
there is one, then the date part; at least one field must have been read. -/
def parseFields (neg : Bool) (pcopy : List Char) : Option period64 :=
  let parts : Option (List Char × Int × Int × Int × Bool) :=
    match cut 'T' pcopy with
    | some (date, time) =>
      match parseTime time with
      | some (hours, minutes, seconds, ok) => some (date, hours, minutes, seconds, ok)
      | none => none
    | none => some (pcopy, 0, 0, 0, false)
  match parts with
  | none => none
  | some (date, hours, minutes, seconds, ok) =>
    match parseDate date ok with
    | none => none
    | some (years, months, days, ok) =>
      if !ok then none
      else some { years := years, months := months, days := days, hours := hours,
                  minutes := minutes, seconds := seconds, neg := neg }

/-- A period string with its optional sign: after the sign it must start with `P`. -/
def parseSigned : List Char → Option period64
  | '-' :: 'P' :: rest => parseFields true rest
  | '+' :: 'P' :: rest => parseFields false rest
  | 'P' :: rest => parseFields false rest
  | _ => none

/-- The helper `rippleUp` of the package: whole minutes are carried out of the
seconds and whole hours out of the minutes; in precise mode hours are carried into
days, and days into months, only when they would not fit a 16-bit field; whole years
are carried out of the months. Division truncates, as in Go. -/
def period64.rippleUp (p : period64) (precise : Bool) : period64 :=
  let minutes := time.wrap64 (p.minutes + time.wrap64 (Int.tdiv p.seconds 600 * 10))
  let seconds := Int.tmod p.seconds 600
  let hours := time.wrap64 (p.hours + time.wrap64 (Int.tdiv minutes 600 * 10))
  let minutes := Int.tmod minutes 600
  let carryHours : Bool := !precise || hours > 32204
  let days := if carryHours then time.wrap64 (p.days + time.wrap64 (Int.tdiv hours 240 * 10))
    else p.days
  let hours := if carryHours then Int.tmod hours 240 else hours
  let carryDays : Bool := !precise || days > 32760
  let dE6 := time.wrap64 (days * 100000)
  let months := if carryDays then
      time.wrap64 (p.months + time.wrap64 (Int.tdiv dE6 30436875 * 10))
    else p.months
  let days := if carryDays then Int.tdiv (Int.tmod dE6 30436875) 100000 else days
  let years := time.wrap64 (p.years + time.wrap64 (Int.tdiv months 120 * 10))
  let months := Int.tmod months 120
  { years := years, months := months, days := days, hours := hours,
    minutes := minutes, seconds := seconds, neg := p.neg }

/-- The helper `moveFractionToRight` of the package: the fractional part of a field
is moved into the next lower field when a lower field is non-zero. -/
def period64.moveFractionToRight (p : period64) : period64 :=
  let y10 := Int.tmod p.years 10
  let moveY : Bool := y10 != 0 && (p.months != 0 || p.days != 0 || p.hours != 0 ||
    p.minutes != 0 || p.seconds != 0)
  let months := if moveY then time.wrap64 (p.months + time.wrap64 (y10 * 12)) else p.months
  let years := if moveY then time.wrap64 (Int.tdiv p.years 10 * 10) else p.years
  let m10 := Int.tmod months 10
  let moveM : Bool := m10 != 0 && (p.days != 0 || p.hours != 0 || p.minutes != 0 ||
    p.seconds != 0)
  let days := if moveM then
      time.wrap64 (p.days + Int.tdiv (time.wrap64 (m10 * 30436875)) 1000000)
    else p.days
  let months := if moveM then time.wrap64 (Int.tdiv months 10 * 10) else months
  let d10 := Int.tmod days 10
  let moveD : Bool := d10 != 0 && (p.hours != 0 || p.minutes != 0 || p.seconds != 0)
  let hours := if moveD then time.wrap64 (p.hours + time.wrap64 (d10 * 24)) else p.hours
  let days := if moveD then time.wrap64 (Int.tdiv days 10 * 10) else days
  let hh10 := Int.tmod hours 10
  let moveH : Bool := hh10 != 0 && (p.minutes != 0 || p.seconds != 0)
  let minutes := if moveH then time.wrap64 (p.minutes + time.wrap64 (hh10 * 60)) else p.minutes
  let hours := if moveH then time.wrap64 (Int.tdiv hours 10 * 10) else hours
  let mm10 := Int.tmod minutes 10
  let moveMin : Bool := mm10 != 0 && p.seconds != 0
  let seconds := if moveMin then time.wrap64 (p.seconds + time.wrap64 (mm10 * 60)) else p.seconds
  let minutes := if moveMin then time.wrap64 (Int.tdiv minutes 10 * 10) else minutes
  { years := years, months := months, days := days, hours := hours,
    minutes := minutes, seconds := seconds, neg := p.neg }

/-- The helper `normalise64` of the package. -/
def period64.normalise64 (p : period64) (precise : Bool) : period64 :=
  (p.rippleUp precise).moveFractionToRight

/-- Conversion of an `int64` to `int16` (two's-complement truncation). -/
def wrap16 (x : Int) : Int := (x + 2 ^ 15) % 2 ^ 16 - 2 ^ 15

/-- The helper `toPeriod` of the package: each field converted to 16 bits, negated
first when the period carries a minus sign. -/
def period64.toPeriod (p : period64) : Period :=
  let sign : Int := if p.neg then -1 else 1
  { years := wrap16 (sign * p.years), months := wrap16 (sign * p.months),
    days := wrap16 (sign * p.days), hours := wrap16 (sign * p.hours),
    minutes := wrap16 (sign * p.minutes), seconds := wrap16 (sign * p.seconds) }

/-- Modelled from the spec: `period.Parse` of `github.com/rickb777/date`, which
`MakeReceiveAdapter` calls on the backoff delay; the package is a dependency whose
source is not among the files of this repository. Section 4.1 of the spec says the
delay is parsed as an ISO-8601 duration (such as `PT1S` or `PT0.2S`) and that on a
parse failure the translator goes on with what the parser returns, an empty
duration. The model follows the parser of the package's earlier releases
(`parseField`, `parseDecimalFixedPoint`, `normalise64`, `toPeriod`): an optional
sign, `P`, the fields `nY nM nW nD` and, after `T`, `nH nM nS`; the period read is
normalised (seconds carried into minutes and hours) and then stored in 16-bit
fields. The result is the period together with the flag "an error was returned";
with an error the period is the zero period. The blank string and a bare sign are
errors, as in the later releases. -/
def Parse (s : String) : Period × Bool :=
  if s = "" || s = "-" || s = "+" then ({}, true)
  else if s = "P0" then ({}, false)
  else
    match parseSigned s.data with
    | some p64 => ((p64.normalise64 true).toPeriod, false)
    | none => ({}, true)

/-- Modelled from the spec: `Period.DurationApprox` of the same package (its source
is not among the files of this repository), "the canonical approximate duration of
that period" of section 4.1: a year counts as 365.2425 days, a month as 30.436875
days, a day as 24 hours; the result is a `time.Duration`, computed in 64-bit
arithmetic. -/
def Period.DurationApprox (p : Period) : time.Duration :=
  let totalDaysApproxE7 : Int := p.years * (3652425 * 100) + p.months * 30436875 + p.days * 1000000
  let tdE6 : Int := totalDaysApproxE7 * 8640
  let stE3 : Int := p.hours * 360000 + p.minutes * 6000 + p.seconds * 100
  time.wrap64 (tdE6 * time.Microsecond + stE3 * time.Millisecond)

end period

namespace kmeta

/-- The longest name `ChildName` returns. -/
def longest : Nat := 63

/-- The length of an MD5 digest in hexadecimal. -/
def md5Len : Nat := 32

/-- How much of the parent is kept in front of the hash. -/
def head : Nat := longest - md5Len

/-- The regular expression `^[a-zA-Z0-9]*$` on a one-character string. -/
def isAlphanumeric (c : Char) : Bool := c.isAlphanum

/-- The Go slice expression `s[:k]`, which panics when `k` exceeds `len(s)`. -/
def sliceTo (s : List Char) (k : Nat) : Option (List Char) :=
  if k ≤ s.length then some (s.take k) else none

/-- The loop of `makeValidName` on the reversed string. -/
def makeValidNameRev : List Char → Option (List Char)
  | [] => none
  | c :: cs => if isAlphanumeric c then some (c :: cs) else makeValidNameRev cs

/-- The helper `makeValidName` of `kmeta`: drops trailing characters that are not
alphanumeric; its loop indexes out of range (a panic) on a string with no
alphanumeric character at all. -/
def makeValidName (n : List Char) : Option (List Char) :=
  (makeValidNameRev n.reverse).map List.reverse

/-- Modelled from the spec: `kmeta.ChildName` of `knative.dev/pkg`, which
`MakeReceiveAdapter` calls for the deployment name; the package is a dependency
whose source is not among the files of this repository. The spec describes it as
the "child name" helper that concatenates parent and suffix and, when the result
is over the bound (63, the DNS-label bound of section 8), "preserves the prefix and
appends a hash" (section 9). The model follows the helper as published
(`kmeta/names.go`, with `longest = 63`, `md5Len = 32`, `head = longest - md5Len`):
over the bound, a suffix shorter than 31 characters is kept whole after a cut
parent and the MD5 of the parent; a longer suffix is hashed together with the
parent, and the name is the first 31 characters of the parent, the 32 hexadecimal
digits of that hash, and as much of the start of the suffix as still fits in 63
characters. `none` stands for a panic. -/
def ChildName (parent suffix : String) : Option String :=
  let p := parent.data
  let s := suffix.data
  if (p.length : Int) > (longest : Int) - s.length then
    if (head : Int) - s.length ≤ 0 then
      let h := md5hex (p ++ s)
      let p1 := if head < p.length then p.take head else p
      let ret := p1 ++ h
      let d : Int := (longest : Int) - ret.length
      if d > 0 then do
        let pre ← sliceTo s d.toNat
        let n ← makeValidName (ret ++ pre)
        pure (String.mk n)
      else do
        let n ← makeValidName ret
        pure (String.mk n)
    else do
      let pre ← sliceTo p (head - s.length)
      pure (String.mk (pre ++ md5hex p ++ s))
  else some (String.mk (p ++ s))

end kmeta

/-! ## Kubernetes and Knative API types (the fields the translator sets or reads) -/

/-- Go `map[string]string`. -/
abbrev StringMap := List (String × String)

namespace resource

/-- The notation a quantity was written in. -/
inductive Format where
  | DecimalSI
  | BinarySI
deriving Repr, DecidableEq

/-- A Kubernetes `resource.Quantity`: an amount, kept in thousandths of the unit,
and the notation it was written in. -/
structure Quantity where
  milli : Int
  format : Format
deriving Repr, DecidableEq

/-- The multiplier, in thousandths, and notation of a quantity suffix. -/
def suffixScale (suffix : List Char) : Option (Int × Format) :=
  if suffix = [] then some (1000, Format.DecimalSI)
  else if suffix = ['m'] then some (1, Format.DecimalSI)
  else if suffix = ['k'] then some (1000 * 10 ^ 3, Format.DecimalSI)
  else if suffix = ['M'] then some (1000 * 10 ^ 6, Format.DecimalSI)
  else if suffix = ['G'] then some (1000 * 10 ^ 9, Format.DecimalSI)
  else if suffix = ['K', 'i'] then some (1000 * 2 ^ 10, Format.BinarySI)
  else if suffix = ['M', 'i'] then some (1000 * 2 ^ 20, Format.BinarySI)
  else if suffix = ['G', 'i'] then some (1000 * 2 ^ 30, Format.BinarySI)
  else none

/-- Modelled from the spec: `resource.MustParse` of `k8s.io/apimachinery`, a
dependency whose source is not among the files of this repository; the translator
applies it to the four constants `50m`, `64Mi`, `4000m` and `600Mi` of the resource
envelope (sections 3 and 4.4). The model reads an unsigned whole number followed by
one of the suffixes above; `none` stands for the panic of `MustParse` on anything
else. -/
def MustParse (s : String) : Option Quantity :=
  let digits := s.data.takeWhile Char.isDigit
  let suffix := s.data.dropWhile Char.isDigit
  if digits = [] then none
  else
    match suffixScale suffix with
    | none => none
    | some (scale, format) =>
      some { milli := scale * (digits.foldl (fun n c => 10 * n + (c.toNat - 48)) 0 : Nat),
             format := format }

end resource

/-- Go `corev1.LocalObjectReference`. -/
structure LocalObjectReference where
  Name : String := ""
deriving Repr, DecidableEq

/-- Go `corev1.SecretKeySelector`. -/
structure SecretKeySelector where
  LocalObjectReference : LocalObjectReference := {}
  Key : String := ""
  Optional : Option Bool := none
deriving Repr, DecidableEq

/-- Go `corev1.EnvVarSource`; of its alternatives the translator uses `SecretKeyRef`. -/
structure EnvVarSource where
  SecretKeyRef : Option SecretKeySelector := none
deriving Repr, DecidableEq

/-- Go `corev1.EnvVar`: a literal `Value`, or a reference `ValueFrom`. -/
structure EnvVar where
  Name : String
  Value : String := ""
  ValueFrom : Option EnvVarSource := none
deriving Repr, DecidableEq

/-- Go `corev1.ResourceRequirements`; a `ResourceList` maps a resource name to a quantity. -/
structure ResourceRequirements where
  Limits : List (String × resource.Quantity) := []
  Requests : List (String × resource.Quantity) := []
deriving Repr, DecidableEq

set_option linter.dupNamespace false in
/-- Go `corev1.ContainerPort`. -/
structure ContainerPort where
  Name : String := ""
  ContainerPort : Int := 0
deriving Repr, DecidableEq

/-- Go `corev1.VolumeMount`. -/
structure VolumeMount where
  Name : String := ""
  MountPath : String := ""
deriving Repr, DecidableEq

/-- Go `corev1.Probe`. -/
structure Probe where
  InitialDelaySeconds : Int := 0
deriving Repr, DecidableEq

/-- Go `corev1.Volume`. -/
structure Volume where
  Name : String := ""
deriving Repr, DecidableEq

/-- Go `corev1.Container`. -/
structure Container where
  Name : String := ""
  Image : String := ""
  ImagePullPolicy : String := ""
  Env : List EnvVar := []
  Resources : ResourceRequirements := {}
  Ports : List ContainerPort := []
  VolumeMounts : List VolumeMount := []
  LivenessProbe : Option Probe := none
  ReadinessProbe : Option Probe := none
  StartupProbe : Option Probe := none
deriving Repr, DecidableEq

/-- Go `metav1.OwnerReference`. -/
structure OwnerReference where
  APIVersion : String := ""
  Kind : String := ""
  Name : String := ""
  UID : String := ""
  Controller : Option Bool := none
  BlockOwnerDeletion : Option Bool := none
deriving Repr, DecidableEq

/-- Go `metav1.ObjectMeta`. -/
structure ObjectMeta where
  Name : String := ""
  GenerateName : String := ""
  Namespace : String := ""
  UID : String := ""
  Labels : StringMap := []
  Annotations : StringMap := []
  OwnerReferences : List OwnerReference := []
deriving Repr, DecidableEq

/-- Go `metav1.LabelSelector`. -/
structure LabelSelector where
  MatchLabels : StringMap := []
deriving Repr, DecidableEq

/-- Go `corev1.PodSpec`. -/
structure PodSpec where
  ServiceAccountName : String := ""
  Containers : List Container := []
  Volumes : List Volume := []
deriving Repr, DecidableEq

/-- Go `corev1.PodTemplateSpec`. -/
structure PodTemplateSpec where
  ObjectMeta : ObjectMeta := {}
  Spec : PodSpec := {}
deriving Repr, DecidableEq

/-- Go `appsv1.DeploymentSpec`. -/
structure DeploymentSpec where
  Replicas : Option Int := none
  Selector : Option LabelSelector := none
  Template : PodTemplateSpec := {}
deriving Repr, DecidableEq

/-- Go `appsv1.Deployment`. -/
structure Deployment where
  ObjectMeta : ObjectMeta := {}
  Spec : DeploymentSpec := {}
deriving Repr, DecidableEq

/-- Go `eventingduckv1.DeliverySpec` (`knative.dev/eventing`): the three optional
sub-fields the translator reads. `Retry` is an `*int32`, `BackoffPolicy` a pointer
to a string type, `BackoffDelay` a `*string`. -/
structure DeliverySpec where
  Retry : Option Int := none
  BackoffPolicy : Option String := none
  BackoffDelay : Option String := none
deriving Repr, DecidableEq

/-- The constant `eventingduckv1.BackoffPolicyExponential`. -/
def BackoffPolicyExponential : String := "exponential"

/-- Modelled from the spec: `v1alpha1.RabbitmqResourcesConfigSpec`, declared in
`pkg/apis/sources/v1alpha1`, a package whose files are not at hand; the
"broker-resources" of section 3: vhost, predeclared flag, parallelism (an `*int`),
exchange name, queue name. -/
structure RabbitmqResourcesConfigSpec where
  Vhost : String := ""
  Predeclared : Bool := false
  Parallelism : Option Int := none
  ExchangeName : String := ""
  QueueName : String := ""
deriving Repr, DecidableEq

/-- Modelled from the spec: `v1alpha1.RabbitmqSourceSpec` (same package, not at
hand), the fields of the source spec `MakeReceiveAdapter` reads. -/
structure RabbitmqSourceSpec where
  RabbitmqResourcesConfig : RabbitmqResourcesConfigSpec := {}
  Delivery : Option DeliverySpec := none
  ServiceAccountName : String := ""
deriving Repr, DecidableEq

/-- Modelled from the spec: `v1alpha1.RabbitmqSource` (same package, not at hand):
the object metadata `MakeReceiveAdapter` reads (name, namespace, UID) and the spec. -/
structure RabbitmqSource where
  Name : String := ""
  Namespace : String := ""
  UID : String := ""
  Spec : RabbitmqSourceSpec := {}
deriving Repr, DecidableEq

/-- Modelled from the spec: `kmeta.NewControllerRef` applied to a `RabbitmqSource`.
Neither the helper (`knative.dev/pkg`) nor the source's `GetGroupVersionKind`
(`pkg/apis/sources/v1alpha1`) is among the files at hand; section 4.3 asks for "one
owner reference whose controller flag is true and whose target is the source object".
The reference names the source by API version, kind, name and UID and sets both
`Controller` and `BlockOwnerDeletion`. -/
def kmeta.NewControllerRef (source : RabbitmqSource) : OwnerReference :=
  { APIVersion := "sources.knative.dev/v1alpha1",
    Kind := "RabbitmqSource",
    Name := source.Name,
    UID := source.UID,
    BlockOwnerDeletion := some true,
    Controller := some true }

/-! ## The translator -/

/-- Go `ReceiveAdapterArgs` (`receive_adapter.go`, lines 34-43). -/
structure ReceiveAdapterArgs where
  Image : String := ""
  Source : Option RabbitmqSource := none
  Labels : StringMap := []
  SinkURI : String := ""
  MetricsConfig : String := ""
  LoggingConfig : String := ""
  RabbitMQSecretName : String := ""
  BrokerUrlSecretKey : String := ""
deriving Repr, DecidableEq

/-- Go `MakeReceiveAdapter` (`receive_adapter.go`, lines 45-180), applied to the
struct `args` points to. `none` stands for a panic: the dereference of a nil
`Source` or of a nil `Parallelism`, or a panic inside a helper. -/
def MakeReceiveAdapter (args : ReceiveAdapterArgs) : Option Deployment := do
  let replicas : Int := 1
  let source ← args.Source
  let parallelism ← source.Spec.RabbitmqResourcesConfig.Parallelism
  let env : List EnvVar := [
    { Name := "RABBIT_URL",
      ValueFrom := some {
        SecretKeyRef := some {
          LocalObjectReference := { Name := args.RabbitMQSecretName },
          Key := args.BrokerUrlSecretKey } } },
    { Name := "RABBITMQ_CHANNEL_PARALLELISM",
      Value := strconv.Itoa parallelism },
    { Name := "RABBITMQ_EXCHANGE_NAME",
      Value := source.Spec.RabbitmqResourcesConfig.ExchangeName },
    { Name := "RABBITMQ_QUEUE_NAME",
      Value := source.Spec.RabbitmqResourcesConfig.QueueName },
    { Name := "RABBITMQ_PREDECLARED",
      Value := strconv.FormatBool source.Spec.RabbitmqResourcesConfig.Predeclared },
    { Name := "SINK_URI",
      Value := args.SinkURI },
    { Name := "K_SINK",
      Value := args.SinkURI },
    { Name := "NAME",
      Value := source.Name },
    { Name := "NAMESPACE",
      Value := source.Namespace },
    { Name := "K_LOGGING_CONFIG",
      Value := args.LoggingConfig },
    { Name := "K_METRICS_CONFIG",
      Value := args.MetricsConfig },
    { Name := "RABBITMQ_VHOST",
      Value := source.Spec.RabbitmqResourcesConfig.Vhost } ]
  let env : List EnvVar :=
    match source.Spec.Delivery with
    | none => env
    | some delivery =>
      let env :=
        match delivery.Retry with
        | some retry => env ++ [{ Name := "HTTP_SENDER_RETRY", Value := strconv.FormatInt retry 10 }]
        | none => env
      let env :=
        match delivery.BackoffPolicy with
        | some policy => env ++ [{ Name := "HTTP_SENDER_BACKOFF_POLICY", Value := policy }]
        | none => env ++ [{ Name := "HTTP_SENDER_BACKOFF_POLICY", Value := BackoffPolicyExponential }]
      match delivery.BackoffDelay with
      | some delay =>
        let p := (period.Parse delay).1
        env ++ [{ Name := "HTTP_SENDER_BACKOFF_DELAY", Value := p.DurationApprox.String }]
      | none => env
  let name ← kmeta.ChildName ("rabbitmqsource-" ++ source.Name ++ "-") source.UID
  let ownerRef := kmeta.NewControllerRef source
  let cpuRequest ← resource.MustParse "50m"
  let memoryRequest ← resource.MustParse "64Mi"
  let cpuLimit ← resource.MustParse "4000m"
  let memoryLimit ← resource.MustParse "600Mi"
  pure {
    ObjectMeta := {
      Name := name,
      Namespace := source.Namespace,
      GenerateName := source.Name ++ "-",
      Labels := args.Labels,
      OwnerReferences := [ownerRef] },
    Spec := {
      Selector := some { MatchLabels := args.Labels },
      Replicas := some replicas,
      Template := {
        ObjectMeta := {
          Annotations := [("sidecar.istio.io/inject", "true")],
          Labels := args.Labels },
        Spec := {
          ServiceAccountName := source.Spec.ServiceAccountName,
          Containers := [
            { Name := "receive-adapter",
              Image := args.Image,
              ImagePullPolicy := "IfNotPresent",
              Env := env,
              Resources := {
                Requests := [("cpu", cpuRequest), ("memory", memoryRequest)],
                Limits := [("cpu", cpuLimit), ("memory", memoryLimit)] } } ] } } } }

/-! ## The two parts of the environment, named for the proofs -/

/-- The twelve base bindings `MakeReceiveAdapter` builds first (lines 47-103). -/
def baseEnv (args : ReceiveAdapterArgs) (source : RabbitmqSource) (parallelism : Int) :
    List EnvVar := [
  { Name := "RABBIT_URL",
    ValueFrom := some {
      SecretKeyRef := some {
        LocalObjectReference := { Name := args.RabbitMQSecretName },
        Key := args.BrokerUrlSecretKey } } },
  { Name := "RABBITMQ_CHANNEL_PARALLELISM", Value := strconv.Itoa parallelism },
  { Name := "RABBITMQ_EXCHANGE_NAME", Value := source.Spec.RabbitmqResourcesConfig.ExchangeName },
  { Name := "RABBITMQ_QUEUE_NAME", Value := source.Spec.RabbitmqResourcesConfig.QueueName },
  { Name := "RABBITMQ_PREDECLARED",
    Value := strconv.FormatBool source.Spec.RabbitmqResourcesConfig.Predeclared },
  { Name := "SINK_URI", Value := args.SinkURI },
  { Name := "K_SINK", Value := args.SinkURI },
  { Name := "NAME", Value := source.Name },
  { Name := "NAMESPACE", Value := source.Namespace },
  { Name := "K_LOGGING_CONFIG", Value := args.LoggingConfig },
  { Name := "K_METRICS_CONFIG", Value := args.MetricsConfig },
  { Name := "RABBITMQ_VHOST", Value := source.Spec.RabbitmqResourcesConfig.Vhost } ]

/-- The binding appended for a retry count (lines 106-111). -/
def retryEnv : Option Int → List EnvVar
  | some retry => [{ Name := "HTTP_SENDER_RETRY", Value := strconv.FormatInt retry 10 }]
  | none => []

/-- The binding appended for the backoff policy (lines 113-123). -/
def policyEnv : Option String → List EnvVar
  | some policy => [{ Name := "HTTP_SENDER_BACKOFF_POLICY", Value := policy }]
  | none => [{ Name := "HTTP_SENDER_BACKOFF_POLICY", Value := "exponential" }]

/-- The binding appended for a backoff delay (lines 125-131). -/
def delayEnv : Option String → List EnvVar
  | some delay =>
    [{ Name := "HTTP_SENDER_BACKOFF_DELAY",
       Value := (period.Parse delay).1.DurationApprox.String }]
  | none => []

/-- The bindings appended for the delivery block (lines 105-132). -/
def deliveryEnv : Option DeliverySpec → List EnvVar
  | none => []
  | some delivery =>
    retryEnv delivery.Retry ++ policyEnv delivery.BackoffPolicy ++ delayEnv delivery.BackoffDelay

/-! ## Concrete inputs: the scenarios of section 8 of the spec -/

/-- The source of scenario 1 (name `s1`, namespace `ns`, UID `u1`, parallelism 1,
exchange `e`, queue `q`, empty vhost, not predeclared) with a given delivery block. -/
def scenarioSource (delivery : Option DeliverySpec) : RabbitmqSource :=
  { Name := "s1", Namespace := "ns", UID := "u1",
    Spec := {
      RabbitmqResourcesConfig := {
        Vhost := "", Predeclared := false, Parallelism := some 1,
        ExchangeName := "e", QueueName := "q" },
      Delivery := delivery } }

/-- The arguments of scenario 1 (sink `http://sink/`, secret `sec`, key `url`) with a
given delivery block. -/
def scenarioArgs (delivery : Option DeliverySpec) : ReceiveAdapterArgs :=
  { Source := some (scenarioSource delivery), SinkURI := "http://sink/",
    RabbitMQSecretName := "sec", BrokerUrlSecretKey := "url" }

/-- The delivery block of scenario 3: retry 3, linear backoff, delay `PT2S`. -/
def fullDelivery : DeliverySpec :=
  { Retry := some 3, BackoffPolicy := some "linear", BackoffDelay := some "PT2S" }

/-- The delivery block of scenario 4: an unparseable delay. -/
def garbageDelivery : DeliverySpec := { BackoffDelay := some "garbage" }

/-- A source name of 240 characters (scenario 5). -/
def longSourceName : String := String.mk (List.replicate 240 'n')

/-- A UID in the standard 36-character form. -/
def standardUID : String := "123e4567-e89b-12d3-a456-426614174000"

/-- The source of scenario 5: a 240-character name and a standard UID. -/
def longSource : RabbitmqSource :=
  { Name := longSourceName, Namespace := "ns", UID := standardUID,
    Spec := { RabbitmqResourcesConfig := { Parallelism := some 1 } } }

/-- The arguments of scenario 5. -/
def longArgs : ReceiveAdapterArgs := { Source := some longSource }

/-- The source of scenario 6: scenario 1 with parallelism 1000. -/
def highParallelismSource : RabbitmqSource :=
  { Name := "s1", Namespace := "ns", UID := "u1",
    Spec := {
      RabbitmqResourcesConfig := {
        Vhost := "", Predeclared := false, Parallelism := some 1000,
        ExchangeName := "e", QueueName := "q" } } }

/-- The arguments of scenario 6. -/
def highParallelismArgs : ReceiveAdapterArgs :=
  { Source := some highParallelismSource, SinkURI := "http://sink/",
    RabbitMQSecretName := "sec", BrokerUrlSecretKey := "url" }

/-- The source of scenario 1 with a service account. -/
def labelledSource : RabbitmqSource :=
  { Name := "s1", Namespace := "ns", UID := "u1",
    Spec := {
      RabbitmqResourcesConfig := {
        Vhost := "", Predeclared := false, Parallelism := some 1,
        ExchangeName := "e", QueueName := "q" },
      ServiceAccountName := "sa" } }

/-- Scenario 1 with an image, labels, a service account and configuration blobs. -/
def labelledArgs : ReceiveAdapterArgs :=
  { Image := "example.com/receive-adapter:v1",
    Source := some labelledSource,
    Labels := [("app", "rabbitmq-source"), ("source", "s1")],
    SinkURI := "http://sink/", MetricsConfig := "metrics", LoggingConfig := "logging",
    RabbitMQSecretName := "sec", BrokerUrlSecretKey := "url" }

/-- The source of scenario 1 with a nil parallelism pointer. -/
def nilParallelismSource : RabbitmqSource := { Name := "s1", Namespace := "ns", UID := "u1" }

/-- Scenario 1 with a nil parallelism pointer. -/
def nilParallelismArgs : ReceiveAdapterArgs :=
  { Source := some nilParallelismSource,
    SinkURI := "http://sink/", RabbitMQSecretName := "sec", BrokerUrlSecretKey := "url" }

/-! ## Auxiliary facts about the helpers -/

theorem md5.Sum_length (msg : List Nat) : (md5.Sum msg).length = 16 := by
  simp [md5.Sum, md5.le32]

theorem fmt.hexBytes_length (bs : List Nat) : (fmt.hexBytes bs).length = 2 * bs.length := by
  induction bs with
  | nil => rfl
  | cons b bs ih =>
    simp only [fmt.hexBytes, List.flatMap_cons, List.length_append, List.length_cons,
      List.length_nil] at ih ⊢
    omega

theorem md5hex_length (s : List Char) : (md5hex s).length = 32 := by
  simp [md5hex, fmt.hexBytes_length, md5.Sum_length]

theorem fmt.hexDigit_alnum (n : Nat) (h : n < 16) : kmeta.isAlphanumeric (fmt.hexDigit n) = true := by
  interval_cases n <;> decide

theorem fmt.hexBytes_alnum (bs : List Nat) :
    ∀ c ∈ fmt.hexBytes bs, kmeta.isAlphanumeric c = true := by
  intro c hc
  simp only [fmt.hexBytes, List.mem_flatMap, List.mem_cons, List.mem_singleton,
    List.mem_nil_iff, or_false] at hc
  obtain ⟨b, _, hb | hb⟩ := hc
  · rw [hb]; exact fmt.hexDigit_alnum _ (Nat.mod_lt _ (by decide))
  · rw [hb]; exact fmt.hexDigit_alnum _ (Nat.mod_lt _ (by decide))

theorem md5hex_alnum (s : List Char) : ∀ c ∈ md5hex s, kmeta.isAlphanumeric c = true :=
  fmt.hexBytes_alnum _

theorem md5hex_ne_nil (s : List Char) : md5hex s ≠ [] := by
  intro h
  have := md5hex_length s
  rw [h] at this
  simp at this

theorem kmeta.makeValidNameRev_isSome (n : List Char)
    (h : ∃ c ∈ n, kmeta.isAlphanumeric c = true) :
    ∃ m, kmeta.makeValidNameRev n = some m ∧ m.length ≤ n.length := by
  induction n with
  | nil => simp at h
  | cons a n ih =>
    by_cases ha : kmeta.isAlphanumeric a = true
    · exact ⟨a :: n, by simp [kmeta.makeValidNameRev, ha], le_refl _⟩
    · have h2 : ∃ c ∈ n, kmeta.isAlphanumeric c = true := by
        obtain ⟨c, hc, hcc⟩ := h
        rcases List.mem_cons.mp hc with rfl | hc
        · exact absurd hcc ha
        · exact ⟨c, hc, hcc⟩
      obtain ⟨m, hm, hlen⟩ := ih h2
      refine ⟨m, by simp [kmeta.makeValidNameRev, ha, hm], ?_⟩
      simp only [List.length_cons]
      omega

theorem kmeta.makeValidName_isSome (n : List Char)
    (h : ∃ c ∈ n, kmeta.isAlphanumeric c = true) :
    ∃ m, kmeta.makeValidName n = some m ∧ m.length ≤ n.length := by
  have h2 : ∃ c ∈ n.reverse, kmeta.isAlphanumeric c = true := by
    obtain ⟨c, hc, hcc⟩ := h
    exact ⟨c, List.mem_reverse.mpr hc, hcc⟩
  obtain ⟨m, hm, hlen⟩ := kmeta.makeValidNameRev_isSome n.reverse h2
  refine ⟨m.reverse, by simp [kmeta.makeValidName, hm], ?_⟩
  simpa using hlen

/-- A name that ends in an alphanumeric character is returned unchanged. -/
theorem kmeta.makeValidName_of_last (n : List Char) (c : Char)
    (hc : kmeta.isAlphanumeric c = true) :
    kmeta.makeValidName (n ++ [c]) = some (n ++ [c]) := by
  simp [kmeta.makeValidName, kmeta.makeValidNameRev, hc]


theorem kmeta.sliceTo_of_le (s : List Char) (k : Nat) (h : k ≤ s.length) :
    kmeta.sliceTo s k = some (s.take k) := by
  simp [kmeta.sliceTo, h]

/-- The helper `ChildName` never panics, and its result has at most 63 characters. -/
theorem kmeta.ChildName_spec (parent suffix : String) :
    ∃ n, kmeta.ChildName parent suffix = some n ∧ n.length ≤ 63 := by
  unfold kmeta.ChildName
  simp only [kmeta.longest, kmeta.head, kmeta.md5Len]
  generalize parent.data = p
  generalize suffix.data = s
  have hlen := md5hex_length (p ++ s)
  have hlen2 := md5hex_length p
  have hal : ∃ c ∈ md5hex (p ++ s), kmeta.isAlphanumeric c = true := by
    obtain ⟨c, hc⟩ := List.exists_mem_of_ne_nil _ (md5hex_ne_nil (p ++ s))
    exact ⟨c, hc, md5hex_alnum _ c hc⟩
  by_cases h1 : (p.length : Int) > ((63 : Nat) : Int) - s.length
  · rw [if_pos h1]
    by_cases h2 : (((63 - 32 : Nat) : Nat) : Int) - s.length ≤ 0
    · rw [if_pos h2]
      generalize hp1 : (if 63 - 32 < p.length then List.take (63 - 32) p else p) = p1
      have hp1len : p1.length ≤ 31 := by
        rw [← hp1]
        split_ifs with h3
        · simp
        · omega
      by_cases h4 : ((63 : Nat) : Int) - ((p1 ++ md5hex (p ++ s)).length : Nat) > 0
      · rw [if_pos h4]
        have hk : (((63 : Nat) : Int) - ((p1 ++ md5hex (p ++ s)).length : Nat)).toNat ≤ s.length := by
          simp only [List.length_append, hlen] at h4 ⊢
          omega
        rw [kmeta.sliceTo_of_le _ _ hk]
        obtain ⟨m, hm, hml⟩ := kmeta.makeValidName_isSome
          (p1 ++ md5hex (p ++ s) ++
            List.take (((63 : Nat) : Int) - ((p1 ++ md5hex (p ++ s)).length : Nat)).toNat s)
          (by obtain ⟨c, hc, hcc⟩ := hal; exact ⟨c, by simp [hc], hcc⟩)
        refine ⟨String.mk m, ?_, ?_⟩
        · simp only [Option.bind_eq_bind, Option.some_bind, hm, Option.pure_def]
        · simp only [List.length_append, List.length_take, hlen] at hml h4 hk
          show m.length ≤ 63
          omega
      · rw [if_neg h4]
        obtain ⟨m, hm, hml⟩ := kmeta.makeValidName_isSome (p1 ++ md5hex (p ++ s))
          (by obtain ⟨c, hc, hcc⟩ := hal; exact ⟨c, by simp [hc], hcc⟩)
        refine ⟨String.mk m, ?_, ?_⟩
        · simp only [Option.bind_eq_bind, Option.some_bind, hm, Option.pure_def]
        · simp only [List.length_append, hlen] at hml
          show m.length ≤ 63
          omega
    · rw [if_neg h2]
      have hk : 63 - 32 - s.length ≤ p.length := by omega
      rw [kmeta.sliceTo_of_le _ _ hk]
      refine ⟨_, rfl, ?_⟩
      show (List.take (63 - 32 - s.length) p ++ md5hex p ++ s).length ≤ 63
      simp only [List.length_append, List.length_take, hlen2]
      omega
  · rw [if_neg h1]
    refine ⟨_, rfl, ?_⟩
    show (p ++ s).length ≤ 63
    simp only [List.length_append]
    omega

/-! ## The shape of the result on valid arguments -/

/-- In base 10 `FormatInt` writes the decimal numeral of the integer. -/
theorem strconv.FormatInt_ten (i : Int) : strconv.FormatInt i 10 = toString i := by
  cases i with
  | ofNat m =>
    have h : ¬ ((Int.ofNat m) < 0) := by simp
    simp only [strconv.FormatInt, if_neg h]
    rfl
  | negSucc m =>
    have h : (Int.negSucc m) < 0 := Int.negSucc_lt_zero m
    simp only [strconv.FormatInt, if_pos h]
    rfl

theorem resource.MustParse_consts :
    resource.MustParse "50m" = some { milli := 50, format := resource.Format.DecimalSI } ∧
    resource.MustParse "64Mi" = some { milli := 67108864000, format := resource.Format.BinarySI } ∧
    resource.MustParse "4000m" = some { milli := 4000, format := resource.Format.DecimalSI } ∧
    resource.MustParse "600Mi" = some { milli := 629145600000, format := resource.Format.BinarySI } := by
  refine ⟨?_, ?_, ?_, ?_⟩ <;> rfl

/-- With a non-nil source and a non-nil parallelism `MakeReceiveAdapter` returns a
deployment with one container, whose environment is the base bindings followed by
the delivery bindings, and whose name is the child name of the source. -/
theorem MakeReceiveAdapter_valid (args : ReceiveAdapterArgs) (src : RabbitmqSource) (p : Int)
    (hs : args.Source = some src)
    (hp : src.Spec.RabbitmqResourcesConfig.Parallelism = some p) :
    ∃ d c name, MakeReceiveAdapter args = some d ∧
      d.Spec.Template.Spec.Containers = [c] ∧
      c.Env = baseEnv args src p ++ deliveryEnv src.Spec.Delivery ∧
      kmeta.ChildName ("rabbitmqsource-" ++ src.Name ++ "-") src.UID = some name ∧
      d.ObjectMeta.Name = name := by
  obtain ⟨name, hname, _⟩ := kmeta.ChildName_spec ("rabbitmqsource-" ++ src.Name ++ "-") src.UID
  obtain ⟨h1, h2, h3, h4⟩ := resource.MustParse_consts
  unfold MakeReceiveAdapter
  simp only [hs, hp, hname, h1, h2, h3, h4, Option.bind_eq_bind, Option.some_bind, Option.pure_def]
  refine ⟨_, _, name, rfl, rfl, ?_, rfl, rfl⟩
  rcases hd : src.Spec.Delivery with _ | delivery
  · simp [baseEnv, deliveryEnv]
  · rcases hr : delivery.Retry with _ | r <;> rcases hb : delivery.BackoffPolicy with _ | b <;>
      rcases hy : delivery.BackoffDelay with _ | y <;>
      simp [baseEnv, deliveryEnv, retryEnv, policyEnv, delayEnv, hr, hb, hy, BackoffPolicyExponential]

/-! ## Claims about the environment -/

/-- C1: with a non-nil source and a non-nil parallelism, the deployment has a single
container and the names of its first twelve environment bindings are RABBIT_URL,
RABBITMQ_CHANNEL_PARALLELISM, RABBITMQ_EXCHANGE_NAME, RABBITMQ_QUEUE_NAME,
RABBITMQ_PREDECLARED, SINK_URI, K_SINK, NAME, NAMESPACE, K_LOGGING_CONFIG,
K_METRICS_CONFIG, RABBITMQ_VHOST, in that order, whatever the delivery block is. -/
theorem env_first_twelve_names (args : ReceiveAdapterArgs) (src : RabbitmqSource) (p : Int)
    (hs : args.Source = some src)
    (hp : src.Spec.RabbitmqResourcesConfig.Parallelism = some p) :
    ∃ d c, MakeReceiveAdapter args = some d ∧
      d.Spec.Template.Spec.Containers = [c] ∧
      (c.Env.map EnvVar.Name).take 12 =
        ["RABBIT_URL", "RABBITMQ_CHANNEL_PARALLELISM", "RABBITMQ_EXCHANGE_NAME",
         "RABBITMQ_QUEUE_NAME", "RABBITMQ_PREDECLARED", "SINK_URI", "K_SINK", "NAME",
         "NAMESPACE", "K_LOGGING_CONFIG", "K_METRICS_CONFIG", "RABBITMQ_VHOST"] := by
  obtain ⟨d, c, _, hd, hc, henv, _, _⟩ := MakeReceiveAdapter_valid args src p hs hp
  refine ⟨d, c, hd, hc, ?_⟩
  rw [henv]
  simp [baseEnv]

/-- C2: when the delivery block is nil, the environment has exactly twelve bindings
and none is named HTTP_SENDER_RETRY, HTTP_SENDER_BACKOFF_POLICY or
HTTP_SENDER_BACKOFF_DELAY. -/
theorem env_without_delivery (args : ReceiveAdapterArgs) (src : RabbitmqSource) (p : Int)
    (hs : args.Source = some src)
    (hp : src.Spec.RabbitmqResourcesConfig.Parallelism = some p)
    (hdel : src.Spec.Delivery = none) :
    ∃ d c, MakeReceiveAdapter args = some d ∧
      d.Spec.Template.Spec.Containers = [c] ∧
      c.Env.length = 12 ∧
      ∀ e ∈ c.Env, e.Name ≠ "HTTP_SENDER_RETRY" ∧ e.Name ≠ "HTTP_SENDER_BACKOFF_POLICY" ∧
        e.Name ≠ "HTTP_SENDER_BACKOFF_DELAY" := by
  obtain ⟨d, c, _, hd, hc, henv, _, _⟩ := MakeReceiveAdapter_valid args src p hs hp
  refine ⟨d, c, hd, hc, ?_, ?_⟩
  · rw [henv, hdel]; simp [baseEnv, deliveryEnv]
  · rw [henv, hdel]
    intro e he
    simp only [baseEnv, deliveryEnv, List.append_nil, List.mem_cons, List.mem_singleton,
      List.mem_nil_iff, or_false] at he
    rcases he with h | h | h | h | h | h | h | h | h | h | h | h <;> simp [h]

/-- C3: the environment has a binding named HTTP_SENDER_BACKOFF_POLICY if and only if
the delivery block is non-nil; it then occurs exactly once, as a literal whose value
is the BackoffPolicy string of the block when that is set and "exponential" otherwise. -/
theorem env_backoff_policy (args : ReceiveAdapterArgs) (src : RabbitmqSource) (p : Int)
    (hs : args.Source = some src)
    (hp : src.Spec.RabbitmqResourcesConfig.Parallelism = some p) :
    ∃ d c, MakeReceiveAdapter args = some d ∧
      d.Spec.Template.Spec.Containers = [c] ∧
      ((∃ e ∈ c.Env, e.Name = "HTTP_SENDER_BACKOFF_POLICY") ↔ src.Spec.Delivery ≠ none) ∧
      ∀ delivery, src.Spec.Delivery = some delivery →
        c.Env.filter (fun e => e.Name = "HTTP_SENDER_BACKOFF_POLICY") =
          [{ Name := "HTTP_SENDER_BACKOFF_POLICY",
             Value := delivery.BackoffPolicy.getD "exponential" }] := by
  obtain ⟨d, c, _, hd, hc, henv, _, _⟩ := MakeReceiveAdapter_valid args src p hs hp
  refine ⟨d, c, hd, hc, ?_, ?_⟩
  · rw [henv]
    rcases hdel : src.Spec.Delivery with _ | delivery
    · simp [baseEnv, deliveryEnv]
    · rcases hr : delivery.Retry with _ | r <;> rcases hb : delivery.BackoffPolicy with _ | b <;>
        rcases hy : delivery.BackoffDelay with _ | y <;>
        simp [baseEnv, deliveryEnv, retryEnv, policyEnv, delayEnv, hr, hb, hy]
  · intro delivery hdel
    rw [henv, hdel]
    rcases hr : delivery.Retry with _ | r <;> rcases hb : delivery.BackoffPolicy with _ | b <;>
      rcases hy : delivery.BackoffDelay with _ | y <;>
      simp [baseEnv, deliveryEnv, retryEnv, policyEnv, delayEnv, hr, hb, hy, List.filter_cons]

/-- C4: the environment has a binding named HTTP_SENDER_RETRY if and only if the
delivery block is non-nil and its Retry is set; it then occurs exactly once, as a
literal whose value is the base-10 string of the retry count (the decimal numeral
of the integer): "0" for an explicit retry of 0 and "3" for a retry of 3. -/
theorem env_retry (args : ReceiveAdapterArgs) (src : RabbitmqSource) (p : Int)
    (hs : args.Source = some src)
    (hp : src.Spec.RabbitmqResourcesConfig.Parallelism = some p) :
    ∃ d c, MakeReceiveAdapter args = some d ∧
      d.Spec.Template.Spec.Containers = [c] ∧
      ((∃ e ∈ c.Env, e.Name = "HTTP_SENDER_RETRY") ↔
        ∃ delivery retry, src.Spec.Delivery = some delivery ∧ delivery.Retry = some retry) ∧
      (∀ delivery retry, src.Spec.Delivery = some delivery → delivery.Retry = some retry →
        c.Env.filter (fun e => e.Name = "HTTP_SENDER_RETRY") =
          [{ Name := "HTTP_SENDER_RETRY", Value := strconv.FormatInt retry 10 }]) ∧
      (∀ retry : Int, strconv.FormatInt retry 10 = toString retry) ∧
      strconv.FormatInt 0 10 = "0" ∧ strconv.FormatInt 3 10 = "3" := by
  obtain ⟨d, c, _, hd, hc, henv, _, _⟩ := MakeReceiveAdapter_valid args src p hs hp
  refine ⟨d, c, hd, hc, ?_, ?_, strconv.FormatInt_ten, by decide, by decide⟩
  · rw [henv]
    rcases hdel : src.Spec.Delivery with _ | delivery
    · simp [baseEnv, deliveryEnv]
    · rcases hr : delivery.Retry with _ | r <;> rcases hb : delivery.BackoffPolicy with _ | b <;>
        rcases hy : delivery.BackoffDelay with _ | y <;>
        simp [baseEnv, deliveryEnv, retryEnv, policyEnv, delayEnv, hr, hb, hy]
  · intro delivery retry hdel hr
    rw [henv, hdel]
    rcases hb : delivery.BackoffPolicy with _ | b <;>
      rcases hy : delivery.BackoffDelay with _ | y <;>
      simp [baseEnv, deliveryEnv, retryEnv, policyEnv, delayEnv, hr, hb, hy, List.filter_cons]

/-- C7: the first binding is RABBIT_URL, a secret reference with an empty literal
value whose SecretKeyRef names the secret args.RabbitMQSecretName and the key
args.BrokerUrlSecretKey; every other binding is a literal (ValueFrom is nil) and is
not named RABBIT_URL. -/
theorem env_rabbit_url_secret (args : ReceiveAdapterArgs) (src : RabbitmqSource) (p : Int)
    (hs : args.Source = some src)
    (hp : src.Spec.RabbitmqResourcesConfig.Parallelism = some p) :
    ∃ d c rest, MakeReceiveAdapter args = some d ∧
      d.Spec.Template.Spec.Containers = [c] ∧
      c.Env =
        { Name := "RABBIT_URL",
          Value := "",
          ValueFrom := some {
            SecretKeyRef := some {
              LocalObjectReference := { Name := args.RabbitMQSecretName },
              Key := args.BrokerUrlSecretKey,
              Optional := none } } } :: rest ∧
      ∀ e ∈ rest, e.ValueFrom = none ∧ e.Name ≠ "RABBIT_URL" := by
  obtain ⟨d, c, _, hd, hc, henv, _, _⟩ := MakeReceiveAdapter_valid args src p hs hp
  refine ⟨d, c, (baseEnv args src p).tail ++ deliveryEnv src.Spec.Delivery, hd, hc, ?_, ?_⟩
  · rw [henv]; rfl
  · intro e he
    rcases List.mem_append.mp he with he | he
    · simp only [baseEnv, List.tail_cons, List.mem_cons, List.mem_singleton,
        List.mem_nil_iff, or_false] at he
      rcases he with h | h | h | h | h | h | h | h | h | h | h <;> simp [h]
    · rcases hdel : src.Spec.Delivery with _ | delivery
      · simp [hdel, deliveryEnv] at he
      · rw [hdel] at he
        rcases hr : delivery.Retry with _ | r <;> rcases hb : delivery.BackoffPolicy with _ | b <;>
          rcases hy : delivery.BackoffDelay with _ | y <;>
          simp only [deliveryEnv, retryEnv, policyEnv, delayEnv, hr, hb, hy, List.nil_append,
            List.append_nil, List.cons_append, List.mem_cons, List.mem_singleton,
            List.mem_nil_iff, or_false] at he <;>
          first
            | (rcases he with h | h | h <;> simp [h])
            | (rcases he with h | h <;> simp [h])
            | simp [he]

/-- C8: the bindings SINK_URI and K_SINK are both present, and every binding with one
of these names is a literal whose value is args.SinkURI, so the two carry identical
values. -/
theorem env_dual_sink (args : ReceiveAdapterArgs) (src : RabbitmqSource) (p : Int)
    (hs : args.Source = some src)
    (hp : src.Spec.RabbitmqResourcesConfig.Parallelism = some p) :
    ∃ d c, MakeReceiveAdapter args = some d ∧
      d.Spec.Template.Spec.Containers = [c] ∧
      c.Env.filter (fun e => e.Name = "SINK_URI") =
        [{ Name := "SINK_URI", Value := args.SinkURI }] ∧
      c.Env.filter (fun e => e.Name = "K_SINK") =
        [{ Name := "K_SINK", Value := args.SinkURI }] := by
  obtain ⟨d, c, _, hd, hc, henv, _, _⟩ := MakeReceiveAdapter_valid args src p hs hp
  refine ⟨d, c, hd, hc, ?_, ?_⟩ <;>
  · rw [henv]
    rcases hdel : src.Spec.Delivery with _ | delivery
    · simp [baseEnv, deliveryEnv, List.filter_cons]
    · rcases hr : delivery.Retry with _ | r <;> rcases hb : delivery.BackoffPolicy with _ | b <;>
        rcases hy : delivery.BackoffDelay with _ | y <;>
        simp [baseEnv, deliveryEnv, retryEnv, policyEnv, delayEnv, hr, hb, hy, List.filter_cons]

/-! ## Claims about the backoff delay -/

set_option maxRecDepth 100000 in
theorem period.seconds_string (n : Nat) (h1 : 1 ≤ n) (h2 : n ≤ 59) :
    (period.Parse ("PT" ++ toString n ++ "S")).1.DurationApprox.String = toString n ++ "s" := by
  interval_cases n <;> rfl

set_option maxRecDepth 100000 in
theorem period.tenths_string :
    (period.Parse "PT0.2S").1.DurationApprox.String = "200ms" := by
  rfl

set_option maxRecDepth 100000 in
theorem period.Parse_garbage : (period.Parse "garbage").2 = true := by
  rfl

theorem period.Parse_failure (s : String) (h : (period.Parse s).2 = true) :
    (period.Parse s).1 = {} := by
  unfold period.Parse at h ⊢
  by_cases h1 : (s = "" || s = "-" || s = "+") = true
  · rw [if_pos h1]
  · rw [if_neg h1] at h ⊢
    by_cases h2 : s = "P0"
    · rw [if_pos h2]
    · rw [if_neg h2] at h ⊢
      cases hr : period.parseSigned s.data with
      | none => rfl
      | some q => rw [hr] at h; simp at h

/-- A string that does not start with `P`, after an optional sign, is rejected. -/
theorem period.Parse_without_mark (s : String)
    (h : ∀ rest, s.data ≠ 'P' :: rest ∧ s.data ≠ '-' :: 'P' :: rest ∧
      s.data ≠ '+' :: 'P' :: rest) :
    (period.Parse s).2 = true := by
  have hsig : period.parseSigned s.data = none := by
    unfold period.parseSigned
    split
    · next rest heq => exact absurd heq (h rest).2.1
    · next rest heq => exact absurd heq (h rest).2.2
    · next rest heq => exact absurd heq (h rest).1
    · rfl
  unfold period.Parse
  by_cases h1 : (s = "" || s = "-" || s = "+") = true
  · rw [if_pos h1]
  · rw [if_neg h1]
    by_cases h2 : s = "P0"
    · exact absurd (by rw [h2]) (h ['0']).1
    · rw [if_neg h2, hsig]

set_option maxRecDepth 100000 in
/-- Well-formed periods are accepted, also with a seconds count over an hour, with a
decimal mark and no digit after it, and with a fraction on a field that is not the
last; the seconds are carried into minutes and hours. -/
theorem period.Parse_accepts :
    ((period.Parse "PT3600S").2 = false ∧
      (period.Parse "PT3600S").1.DurationApprox.String = "1h0m0s") ∧
    ((period.Parse "PT3277S").2 = false ∧
      (period.Parse "PT3277S").1.DurationApprox.String = "54m37s") ∧
    ((period.Parse "PT1.S").2 = false ∧
      (period.Parse "PT1.S").1.DurationApprox.String = "1s") ∧
    ((period.Parse "PT1H1.5M1S").2 = false ∧
      (period.Parse "PT1H1.5M1S").1.DurationApprox.String = "1h1m31s") ∧
    ((period.Parse "P1DT12H").2 = false ∧
      (period.Parse "P1DT12H").1.DurationApprox.String = "36h0m0s") := by
  refine ⟨⟨?_, ?_⟩, ⟨?_, ?_⟩, ⟨?_, ?_⟩, ⟨?_, ?_⟩, ⟨?_, ?_⟩⟩ <;> rfl

/-- The delivery block with a delay set puts exactly one delay binding in the
environment, whose value is the string of the approximate duration of the parsed
period. -/
theorem env_delay_filter (env : List EnvVar) (args : ReceiveAdapterArgs) (src : RabbitmqSource) (p : Int)
    (delivery : DeliverySpec) (delay : String)
    (henv : env = baseEnv args src p ++ deliveryEnv (some delivery))
    (hdelay : delivery.BackoffDelay = some delay) :
    env.filter (fun e => e.Name = "HTTP_SENDER_BACKOFF_DELAY") =
      [{ Name := "HTTP_SENDER_BACKOFF_DELAY",
         Value := (period.Parse delay).1.DurationApprox.String }] := by
  rw [henv]
  rcases hr : delivery.Retry with _ | r <;> rcases hb : delivery.BackoffPolicy with _ | b <;>
    simp [baseEnv, deliveryEnv, retryEnv, policyEnv, delayEnv, hr, hb, hdelay, List.filter_cons]

/-- C5: when the delivery block is present and BackoffDelay is set, exactly one
HTTP_SENDER_BACKOFF_DELAY binding is emitted; for every whole number n with
1 ≤ n ≤ 59 the delay "PT<n>S" gives the value "<n>s", and "PT0.2S" gives "200ms". -/
theorem env_backoff_delay_value (args : ReceiveAdapterArgs) (src : RabbitmqSource) (p : Int)
    (delivery : DeliverySpec) (delay : String)
    (hs : args.Source = some src)
    (hp : src.Spec.RabbitmqResourcesConfig.Parallelism = some p)
    (hdel : src.Spec.Delivery = some delivery)
    (hdelay : delivery.BackoffDelay = some delay) :
    ∃ d c, MakeReceiveAdapter args = some d ∧
      d.Spec.Template.Spec.Containers = [c] ∧
      (∀ n : Nat, 1 ≤ n → n ≤ 59 → delay = "PT" ++ toString n ++ "S" →
        c.Env.filter (fun e => e.Name = "HTTP_SENDER_BACKOFF_DELAY") =
          [{ Name := "HTTP_SENDER_BACKOFF_DELAY", Value := toString n ++ "s" }]) ∧
      (delay = "PT0.2S" →
        c.Env.filter (fun e => e.Name = "HTTP_SENDER_BACKOFF_DELAY") =
          [{ Name := "HTTP_SENDER_BACKOFF_DELAY", Value := "200ms" }]) := by
  obtain ⟨d, c, _, hd, hc, henv, _, _⟩ := MakeReceiveAdapter_valid args src p hs hp
  rw [hdel] at henv
  have hf := env_delay_filter c.Env args src p delivery delay henv hdelay
  refine ⟨d, c, hd, hc, ?_, ?_⟩
  · intro n h1 h2 hn
    rw [hf, hn, period.seconds_string n h1 h2]
  · intro hn
    rw [hf, hn, period.tenths_string]

/-- C6: a delay that does not parse is swallowed. With a delivery block whose
BackoffDelay is set to a string the parser rejects, a deployment is still returned,
the HTTP_SENDER_BACKOFF_POLICY binding is present, and exactly one
HTTP_SENDER_BACKOFF_DELAY binding is present, with the zero duration "0s" as value;
this is so in particular for every string that does not start with `P` after an
optional sign, such as "garbage". In general the environment has an
HTTP_SENDER_BACKOFF_DELAY binding if and only if the delivery block is present and
its BackoffDelay is set, whether or not the delay parses. -/
theorem env_backoff_delay_swallowed (args : ReceiveAdapterArgs) (src : RabbitmqSource)
    (p : Int)
    (hs : args.Source = some src)
    (hp : src.Spec.RabbitmqResourcesConfig.Parallelism = some p) :
    ∃ d c, MakeReceiveAdapter args = some d ∧
      d.Spec.Template.Spec.Containers = [c] ∧
      (∀ delivery delay, src.Spec.Delivery = some delivery →
        delivery.BackoffDelay = some delay → (period.Parse delay).2 = true →
        (∃ e ∈ c.Env, e.Name = "HTTP_SENDER_BACKOFF_POLICY") ∧
        c.Env.filter (fun e => e.Name = "HTTP_SENDER_BACKOFF_DELAY") =
          [{ Name := "HTTP_SENDER_BACKOFF_DELAY", Value := "0s" }]) ∧
      (∀ delivery delay, src.Spec.Delivery = some delivery →
        delivery.BackoffDelay = some delay →
        (∀ rest, delay.data ≠ 'P' :: rest ∧ delay.data ≠ '-' :: 'P' :: rest ∧
          delay.data ≠ '+' :: 'P' :: rest) →
        (period.Parse delay).2 = true ∧
        c.Env.filter (fun e => e.Name = "HTTP_SENDER_BACKOFF_DELAY") =
          [{ Name := "HTTP_SENDER_BACKOFF_DELAY", Value := "0s" }]) ∧
      ((∃ e ∈ c.Env, e.Name = "HTTP_SENDER_BACKOFF_DELAY") ↔
        ∃ delivery delay, src.Spec.Delivery = some delivery ∧
          delivery.BackoffDelay = some delay) ∧
      (period.Parse "garbage").2 = true := by
  obtain ⟨d, c, _, hd, hc, henv, _, _⟩ := MakeReceiveAdapter_valid args src p hs hp
  have hzero : ∀ delivery delay, src.Spec.Delivery = some delivery →
      delivery.BackoffDelay = some delay → (period.Parse delay).2 = true →
      c.Env.filter (fun e => e.Name = "HTTP_SENDER_BACKOFF_DELAY") =
        [{ Name := "HTTP_SENDER_BACKOFF_DELAY", Value := "0s" }] := by
    intro delivery delay hdel hdelay hfail
    rw [hdel] at henv
    rw [env_delay_filter c.Env args src p delivery delay henv hdelay,
      period.Parse_failure delay hfail]
    rfl
  refine ⟨d, c, hd, hc, ?_, ?_, ?_, period.Parse_garbage⟩
  · intro delivery delay hdel hdelay hfail
    refine ⟨?_, hzero delivery delay hdel hdelay hfail⟩
    rw [henv, hdel]
    rcases hr : delivery.Retry with _ | r <;> rcases hb : delivery.BackoffPolicy with _ | b <;>
      simp [baseEnv, deliveryEnv, retryEnv, policyEnv, delayEnv, hr, hb, hdelay]
  · intro delivery delay hdel hdelay hmark
    have hfail := period.Parse_without_mark delay hmark
    exact ⟨hfail, hzero delivery delay hdel hdelay hfail⟩
  · rw [henv]
    rcases hdel : src.Spec.Delivery with _ | delivery
    · simp [baseEnv, deliveryEnv]
    · rcases hr : delivery.Retry with _ | r <;> rcases hb : delivery.BackoffPolicy with _ | b <;>
        rcases hy : delivery.BackoffDelay with _ | y <;>
        simp [baseEnv, deliveryEnv, retryEnv, policyEnv, delayEnv, hr, hb, hy]

/-! ## Claims about the workload name -/

theorem kmeta.makeValidName_snoc_not_alnum (n : List Char) (a : Char)
    (ha : kmeta.isAlphanumeric a ≠ true) :
    kmeta.makeValidName (n ++ [a]) = kmeta.makeValidName n := by
  simp [kmeta.makeValidName, kmeta.makeValidNameRev, ha]

/-- Trimming stops at an alphanumeric character: what precedes it is kept. -/
theorem kmeta.makeValidName_append (x y : List Char) (c : Char)
    (hc : kmeta.isAlphanumeric c = true) :
    ∃ y1, kmeta.makeValidName (x ++ [c] ++ y) = some (x ++ [c] ++ y1) ∧ y1 <+: y := by
  induction y using List.reverseRecOn with
  | nil =>
    exact ⟨[], by simpa using kmeta.makeValidName_of_last x c hc, List.prefix_refl _⟩
  | append_singleton ys a ih =>
    by_cases ha : kmeta.isAlphanumeric a = true
    · refine ⟨ys ++ [a], ?_, List.prefix_refl _⟩
      have := kmeta.makeValidName_of_last (x ++ [c] ++ ys) a ha
      simpa [List.append_assoc] using this
    · obtain ⟨y1, hy1, hpre⟩ := ih
      refine ⟨y1, ?_, hpre.trans (List.prefix_append _ _)⟩
      rw [← List.append_assoc, kmeta.makeValidName_snoc_not_alnum _ _ ha]
      exact hy1

/-- The hash ends in an alphanumeric character. -/
theorem md5hex_snoc (s : List Char) :
    ∃ h0 c, md5hex s = h0 ++ [c] ∧ kmeta.isAlphanumeric c = true := by
  refine ⟨(md5hex s).dropLast, (md5hex s).getLast (md5hex_ne_nil s), ?_, ?_⟩
  · exact (List.dropLast_append_getLast (md5hex_ne_nil s)).symm
  · exact md5hex_alnum s _ (List.getLast_mem _)

/-- Over the bound with a suffix shorter than 31 characters: the cut parent, the hash
of the parent, and the whole suffix. -/
theorem kmeta.ChildName_short_suffix (parent suffix : String)
    (hover : parent.length + suffix.length > 63) (hshort : suffix.length < 31) :
    kmeta.ChildName parent suffix =
      some (String.mk (parent.data.take (31 - suffix.length) ++ md5hex parent.data
        ++ suffix.data)) := by
  unfold kmeta.ChildName
  simp only [kmeta.longest, kmeta.head, kmeta.md5Len]
  have hp : parent.length = parent.data.length := rfl
  have hq : suffix.length = suffix.data.length := rfl
  rw [hp, hq] at hover
  rw [hq] at hshort ⊢
  generalize parent.data = p at hover ⊢
  generalize suffix.data = s at hover hshort ⊢
  have h1 : (p.length : Int) > ((63 : Nat) : Int) - s.length := by omega
  have h2 : ¬ ((((63 - 32 : Nat) : Nat) : Int) - s.length ≤ 0) := by omega
  rw [if_pos h1, if_neg h2]
  have hk : 63 - 32 - s.length ≤ p.length := by omega
  rw [kmeta.sliceTo_of_le _ _ hk]
  rfl

/-- Over the bound with a suffix of 31 characters or more: the name starts with the
first 31 characters of the parent and the hash of parent and suffix, and is exactly
that when the parent has 31 characters or more. -/
theorem kmeta.ChildName_long_suffix (parent suffix : String)
    (hover : parent.length + suffix.length > 63) (hlong : 31 ≤ suffix.length) :
    ∃ n, kmeta.ChildName parent suffix = some n ∧
      (parent.data.take 31 ++ md5hex (parent.data ++ suffix.data)) <+: n.data ∧
      (31 ≤ parent.length →
        n.data = parent.data.take 31 ++ md5hex (parent.data ++ suffix.data)) := by
  unfold kmeta.ChildName
  simp only [kmeta.longest, kmeta.head, kmeta.md5Len]
  have hp : parent.length = parent.data.length := rfl
  have hq : suffix.length = suffix.data.length := rfl
  rw [hp, hq] at hover
  rw [hq] at hlong
  rw [hp]
  generalize parent.data = p at hover ⊢
  generalize suffix.data = s at hover hlong ⊢
  have hlen := md5hex_length (p ++ s)
  obtain ⟨h0, c, hh, hc⟩ := md5hex_snoc (p ++ s)
  have h1 : (p.length : Int) > ((63 : Nat) : Int) - s.length := by omega
  have h2 : (((63 - 32 : Nat) : Nat) : Int) - s.length ≤ 0 := by omega
  rw [if_pos h1, if_pos h2]
  have hp1 : (if 63 - 32 < p.length then List.take (63 - 32) p else p) = List.take 31 p := by
    split_ifs with h3
    · rfl
    · rw [List.take_of_length_le (by omega)]
  rw [hp1]
  by_cases h4 : ((63 : Nat) : Int) - ((List.take 31 p ++ md5hex (p ++ s)).length : Nat) > 0
  · rw [if_pos h4]
    have hk : (((63 : Nat) : Int) - ((List.take 31 p ++ md5hex (p ++ s)).length : Nat)).toNat
        ≤ s.length := by
      simp only [List.length_append, hlen] at h4 ⊢
      omega
    rw [kmeta.sliceTo_of_le _ _ hk]
    have hlt : p.length < 31 := by
      simp only [List.length_append, List.length_take, hlen] at h4
      omega
    obtain ⟨y1, hy1, _⟩ := kmeta.makeValidName_append (List.take 31 p ++ h0)
      (List.take (((63 : Nat) : Int) - ((List.take 31 p ++ md5hex (p ++ s)).length : Nat)).toNat s)
      c hc
    rw [List.append_assoc (List.take 31 p) h0 [c], ← hh] at hy1
    refine ⟨String.mk (List.take 31 p ++ md5hex (p ++ s) ++ y1),
      by simp only [Option.bind_eq_bind, Option.some_bind, hy1, Option.pure_def], ?_, ?_⟩
    · exact List.prefix_append _ _
    · intro h; omega
  · rw [if_neg h4]
    obtain ⟨y1, hy1, hpre⟩ := kmeta.makeValidName_append (List.take 31 p ++ h0) [] c hc
    rw [List.append_assoc (List.take 31 p) h0 [c], ← hh] at hy1
    have hy1nil : y1 = [] := List.prefix_nil.mp hpre
    rw [hy1nil, List.append_nil] at hy1
    refine ⟨String.mk (List.take 31 p ++ md5hex (p ++ s)),
      by simp only [Option.bind_eq_bind, Option.some_bind, hy1, Option.pure_def], ?_, ?_⟩
    · exact List.prefix_refl _
    · intro _; rfl

/-- C9: for every source name and every UID, the deployment name, which is
ChildName("rabbitmqsource-" + name + "-", uid), has at most 63 characters, hence at
most 253. -/
theorem workload_name_length (args : ReceiveAdapterArgs) (src : RabbitmqSource) (p : Int)
    (hs : args.Source = some src)
    (hp : src.Spec.RabbitmqResourcesConfig.Parallelism = some p) :
    ∃ d, MakeReceiveAdapter args = some d ∧
      kmeta.ChildName ("rabbitmqsource-" ++ src.Name ++ "-") src.UID = some d.ObjectMeta.Name ∧
      d.ObjectMeta.Name.length ≤ 63 ∧ d.ObjectMeta.Name.length ≤ 253 := by
  obtain ⟨d, c, name, hd, _, _, hname, hdn⟩ := MakeReceiveAdapter_valid args src p hs hp
  obtain ⟨n, hn, hlen⟩ := kmeta.ChildName_spec ("rabbitmqsource-" ++ src.Name ++ "-") src.UID
  rw [hname] at hn
  cases hn
  rw [← hdn] at hname hlen
  exact ⟨d, hd, hname, hlen, by omega⟩

/-- C10 (as amended): when "rabbitmqsource-" + name + "-" and the UID together exceed
63 characters, the deployment name keeps the full UID as its tail only if the UID is
shorter than 31 characters: it is then the first 31 - len(uid) characters of the
prefix string, the 32 hexadecimal digits of the MD5 of the prefix string, and the
UID. With a UID of 31 characters or more (a standard UID has 36) the name starts with
the first 31 characters of the prefix string followed by the 32 hexadecimal digits of
the MD5 of prefix string and UID together, and with a source name of 15 characters
or more it is exactly that: the UID enters the name only through the hash. -/
theorem workload_name_truncation (args : ReceiveAdapterArgs) (src : RabbitmqSource) (p : Int)
    (hs : args.Source = some src)
    (hp : src.Spec.RabbitmqResourcesConfig.Parallelism = some p)
    (hover : ("rabbitmqsource-" ++ src.Name ++ "-").length + src.UID.length > 63) :
    ∃ d, MakeReceiveAdapter args = some d ∧
      (src.UID.length < 31 →
        d.ObjectMeta.Name.data =
          ("rabbitmqsource-" ++ src.Name ++ "-").data.take (31 - src.UID.length)
            ++ md5hex ("rabbitmqsource-" ++ src.Name ++ "-").data ++ src.UID.data) ∧
      (31 ≤ src.UID.length →
        (("rabbitmqsource-" ++ src.Name ++ "-").data.take 31
            ++ md5hex (("rabbitmqsource-" ++ src.Name ++ "-").data ++ src.UID.data))
          <+: d.ObjectMeta.Name.data ∧
        (15 ≤ src.Name.length →
          d.ObjectMeta.Name.data =
            ("rabbitmqsource-" ++ src.Name ++ "-").data.take 31
              ++ md5hex (("rabbitmqsource-" ++ src.Name ++ "-").data ++ src.UID.data))) := by
  obtain ⟨d, c, name, hd, _, _, hname, hdn⟩ := MakeReceiveAdapter_valid args src p hs hp
  refine ⟨d, hd, ?_, ?_⟩
  · intro hshort
    rw [kmeta.ChildName_short_suffix _ _ hover hshort] at hname
    cases hname
    rw [hdn]
  · intro hlong
    obtain ⟨n, hn, hpre, heq⟩ := kmeta.ChildName_long_suffix _ _ hover hlong
    rw [hname] at hn
    cases hn
    rw [hdn]
    refine ⟨hpre, fun h15 => heq ?_⟩
    clear hover
    simp only [String.length_append]
    have h1 : "rabbitmqsource-".length = 15 := by decide
    have h2 : "-".length = 1 := by decide
    omega

set_option maxRecDepth 100000 in
/-- C10 fails as stated: for the 240-character source name and the standard UID the
deployment name is the first 31 characters of the prefix string followed by an MD5
hash; it has 63 characters and does not end with the UID. -/
theorem workload_name_drops_long_uid :
    longSourceName.length = 240 ∧ standardUID.length = 36 ∧
    ∃ d, MakeReceiveAdapter longArgs = some d ∧
      d.ObjectMeta.Name = "rabbitmqsource-nnnnnnnnnnnnnnnne065a602090429654b32886545653dce" ∧
      ¬ (standardUID.data <:+ d.ObjectMeta.Name.data) := by
  obtain ⟨d, c, name, hd, _, _, hname, hdn⟩ :=
    MakeReceiveAdapter_valid longArgs longSource 1 rfl rfl
  have hval : kmeta.ChildName ("rabbitmqsource-" ++ longSource.Name ++ "-") longSource.UID =
      some "rabbitmqsource-nnnnnnnnnnnnnnnne065a602090429654b32886545653dce" := by rfl
  rw [hval] at hname
  cases hname
  refine ⟨by decide, by decide, d, hd, hdn, ?_⟩
  rw [hdn]
  decide

/-! ## The claims at the scenarios of the spec -/

/-- Scenario 3 (full delivery block): the first twelve names are the fixed ones. -/
theorem env_first_twelve_names_scenario :
    ∃ d c, MakeReceiveAdapter (scenarioArgs (some fullDelivery)) = some d ∧
      d.Spec.Template.Spec.Containers = [c] ∧
      (c.Env.map EnvVar.Name).take 12 =
        ["RABBIT_URL", "RABBITMQ_CHANNEL_PARALLELISM", "RABBITMQ_EXCHANGE_NAME",
         "RABBITMQ_QUEUE_NAME", "RABBITMQ_PREDECLARED", "SINK_URI", "K_SINK", "NAME",
         "NAMESPACE", "K_LOGGING_CONFIG", "K_METRICS_CONFIG", "RABBITMQ_VHOST"] :=
  env_first_twelve_names (scenarioArgs (some fullDelivery)) (scenarioSource (some fullDelivery)) 1
    rfl rfl

/-- Scenario 1 (no delivery block): twelve bindings, none of them HTTP_SENDER_*. -/
theorem env_without_delivery_scenario :
    ∃ d c, MakeReceiveAdapter (scenarioArgs none) = some d ∧
      d.Spec.Template.Spec.Containers = [c] ∧
      c.Env.length = 12 ∧
      ∀ e ∈ c.Env, e.Name ≠ "HTTP_SENDER_RETRY" ∧ e.Name ≠ "HTTP_SENDER_BACKOFF_POLICY" ∧
        e.Name ≠ "HTTP_SENDER_BACKOFF_DELAY" :=
  env_without_delivery (scenarioArgs none) (scenarioSource none) 1 rfl rfl rfl

/-- Scenario 2 (empty delivery block): the policy binding is there once, with its
value by default. -/
theorem env_backoff_policy_scenario :
    ∃ d c, MakeReceiveAdapter (scenarioArgs (some {})) = some d ∧
      d.Spec.Template.Spec.Containers = [c] ∧
      c.Env.filter (fun e => e.Name = "HTTP_SENDER_BACKOFF_POLICY") =
        [{ Name := "HTTP_SENDER_BACKOFF_POLICY", Value := "exponential" }] := by
  obtain ⟨d, c, hd, hc, _, h⟩ :=
    env_backoff_policy (scenarioArgs (some {})) (scenarioSource (some {})) 1 rfl rfl
  exact ⟨d, c, hd, hc, h {} rfl⟩

/-- Scenario 3 (retry 3): the retry binding is there once, with value "3". -/
theorem env_retry_scenario :
    ∃ d c, MakeReceiveAdapter (scenarioArgs (some fullDelivery)) = some d ∧
      d.Spec.Template.Spec.Containers = [c] ∧
      c.Env.filter (fun e => e.Name = "HTTP_SENDER_RETRY") =
        [{ Name := "HTTP_SENDER_RETRY", Value := "3" }] := by
  obtain ⟨d, c, hd, hc, _, h, _, _, h3⟩ :=
    env_retry (scenarioArgs (some fullDelivery)) (scenarioSource (some fullDelivery)) 1 rfl rfl
  refine ⟨d, c, hd, hc, ?_⟩
  rw [h fullDelivery 3 rfl rfl, h3]

/-- Scenario 3 (delay `PT2S`): the delay binding is there once, with value "2s". -/
theorem env_backoff_delay_value_scenario :
    ∃ d c, MakeReceiveAdapter (scenarioArgs (some fullDelivery)) = some d ∧
      d.Spec.Template.Spec.Containers = [c] ∧
      c.Env.filter (fun e => e.Name = "HTTP_SENDER_BACKOFF_DELAY") =
        [{ Name := "HTTP_SENDER_BACKOFF_DELAY", Value := "2s" }] := by
  obtain ⟨d, c, hd, hc, h, _⟩ :=
    env_backoff_delay_value (scenarioArgs (some fullDelivery))
      (scenarioSource (some fullDelivery)) 1 fullDelivery "PT2S" rfl rfl rfl rfl
  exact ⟨d, c, hd, hc, h 2 (by decide) (by decide) rfl⟩

/-- Scenario 4 (delay `garbage`): a deployment is returned, the policy binding is
present and the delay binding carries the zero duration. -/
theorem env_backoff_delay_swallowed_scenario :
    ∃ d c, MakeReceiveAdapter (scenarioArgs (some garbageDelivery)) = some d ∧
      d.Spec.Template.Spec.Containers = [c] ∧
      (∃ e ∈ c.Env, e.Name = "HTTP_SENDER_BACKOFF_POLICY") ∧
      c.Env.filter (fun e => e.Name = "HTTP_SENDER_BACKOFF_DELAY") =
        [{ Name := "HTTP_SENDER_BACKOFF_DELAY", Value := "0s" }] := by
  obtain ⟨d, c, hd, hc, h, _, _, hg⟩ :=
    env_backoff_delay_swallowed (scenarioArgs (some garbageDelivery))
      (scenarioSource (some garbageDelivery)) 1 rfl rfl
  exact ⟨d, c, hd, hc, h garbageDelivery "garbage" rfl rfl hg⟩

/-- Scenario 1: RABBIT_URL refers to key `url` of secret `sec`; the rest are literals. -/
theorem env_rabbit_url_secret_scenario :
    ∃ d c rest, MakeReceiveAdapter (scenarioArgs none) = some d ∧
      d.Spec.Template.Spec.Containers = [c] ∧
      c.Env =
        { Name := "RABBIT_URL",
          Value := "",
          ValueFrom := some {
            SecretKeyRef := some {
              LocalObjectReference := { Name := "sec" },
              Key := "url",
              Optional := none } } } :: rest ∧
      ∀ e ∈ rest, e.ValueFrom = none ∧ e.Name ≠ "RABBIT_URL" :=
  env_rabbit_url_secret (scenarioArgs none) (scenarioSource none) 1 rfl rfl

/-- Scenario 1: SINK_URI and K_SINK both carry `http://sink/`. -/
theorem env_dual_sink_scenario :
    ∃ d c, MakeReceiveAdapter (scenarioArgs none) = some d ∧
      d.Spec.Template.Spec.Containers = [c] ∧
      c.Env.filter (fun e => e.Name = "SINK_URI") =
        [{ Name := "SINK_URI", Value := "http://sink/" }] ∧
      c.Env.filter (fun e => e.Name = "K_SINK") =
        [{ Name := "K_SINK", Value := "http://sink/" }] :=
  env_dual_sink (scenarioArgs none) (scenarioSource none) 1 rfl rfl

/-- Scenario 5 (240-character name, standard UID): the name has at most 63 characters. -/
theorem workload_name_length_scenario :
    ∃ d, MakeReceiveAdapter longArgs = some d ∧
      d.ObjectMeta.Name.length ≤ 63 ∧ d.ObjectMeta.Name.length ≤ 253 := by
  obtain ⟨d, hd, _, h63, h253⟩ := workload_name_length longArgs longSource 1 rfl rfl
  exact ⟨d, hd, h63, h253⟩

set_option maxRecDepth 100000 in
/-- Scenario 5: the name is the first 31 characters of the prefix string followed by
the hash of prefix string and UID. -/
theorem workload_name_truncation_scenario :
    ∃ d, MakeReceiveAdapter longArgs = some d ∧
      d.ObjectMeta.Name.data =
        ("rabbitmqsource-" ++ longSourceName ++ "-").data.take 31
          ++ md5hex (("rabbitmqsource-" ++ longSourceName ++ "-").data ++ standardUID.data) := by
  obtain ⟨d, hd, _, h⟩ :=
    workload_name_truncation longArgs longSource 1 rfl rfl (by decide)
  exact ⟨d, hd, (h (by decide)).2 (by decide)⟩

/-! ## The whole descriptor on valid arguments -/

/-- Within the bound `ChildName` is plain concatenation. -/
theorem kmeta.ChildName_fits (parent suffix : String)
    (hfit : parent.length + suffix.length ≤ 63) :
    kmeta.ChildName parent suffix = some (parent ++ suffix) := by
  unfold kmeta.ChildName
  simp only [kmeta.longest]
  have hp : parent.length = parent.data.length := rfl
  have hq : suffix.length = suffix.data.length := rfl
  rw [hp, hq] at hfit
  have h1 : ¬ ((parent.data.length : Int) > ((63 : Nat) : Int) - suffix.data.length) := by omega
  rw [if_neg h1]
  rfl

/-- With a non-nil source and a non-nil parallelism `MakeReceiveAdapter` returns the
descriptor spelled out here: every field is given by the arguments. -/
theorem MakeReceiveAdapter_descriptor (args : ReceiveAdapterArgs) (src : RabbitmqSource)
    (p : Int) (hs : args.Source = some src)
    (hp : src.Spec.RabbitmqResourcesConfig.Parallelism = some p) :
    ∃ name, kmeta.ChildName ("rabbitmqsource-" ++ src.Name ++ "-") src.UID = some name ∧
      MakeReceiveAdapter args = some {
        ObjectMeta := {
          Name := name,
          Namespace := src.Namespace,
          GenerateName := src.Name ++ "-",
          Labels := args.Labels,
          OwnerReferences := [kmeta.NewControllerRef src] },
        Spec := {
          Selector := some { MatchLabels := args.Labels },
          Replicas := some 1,
          Template := {
            ObjectMeta := {
              Annotations := [("sidecar.istio.io/inject", "true")],
              Labels := args.Labels },
            Spec := {
              ServiceAccountName := src.Spec.ServiceAccountName,
              Containers := [
                { Name := "receive-adapter",
                  Image := args.Image,
                  ImagePullPolicy := "IfNotPresent",
                  Env := baseEnv args src p ++ deliveryEnv src.Spec.Delivery,
                  Resources := {
                    Requests := [
                      ("cpu", { milli := 50, format := resource.Format.DecimalSI }),
                      ("memory", { milli := 64 * 2 ^ 20 * 1000,
                                   format := resource.Format.BinarySI })],
                    Limits := [
                      ("cpu", { milli := 4000, format := resource.Format.DecimalSI }),
                      ("memory", { milli := 600 * 2 ^ 20 * 1000,
                                   format := resource.Format.BinarySI })] } } ] } } } } := by
  obtain ⟨name, hname, _⟩ := kmeta.ChildName_spec ("rabbitmqsource-" ++ src.Name ++ "-") src.UID
  obtain ⟨h1, h2, h3, h4⟩ := resource.MustParse_consts
  refine ⟨name, hname, ?_⟩
  unfold MakeReceiveAdapter
  simp only [hs, hp, hname, h1, h2, h3, h4, Option.bind_eq_bind, Option.some_bind, Option.pure_def]
  rcases hd : src.Spec.Delivery with _ | delivery
  · simp [baseEnv, deliveryEnv]
  · rcases hr : delivery.Retry with _ | r <;> rcases hb : delivery.BackoffPolicy with _ | b <;>
      rcases hy : delivery.BackoffDelay with _ | y <;>
      simp [baseEnv, deliveryEnv, retryEnv, policyEnv, delayEnv, hr, hb, hy, BackoffPolicyExponential]

/-! ## Claims about identity, ownership and labels -/

/-- C11: when "rabbitmqsource-" + name + "-" + uid has at most 63 characters, the
deployment name is exactly that concatenation, with no truncation and no hash: it
starts with "rabbitmqsource-" + name + "-" and ends with the UID. For name "s1" and
UID "u1" it is "rabbitmqsource-s1-u1". -/
theorem workload_name_within_bound (args : ReceiveAdapterArgs) (src : RabbitmqSource)
    (p : Int) (hs : args.Source = some src)
    (hp : src.Spec.RabbitmqResourcesConfig.Parallelism = some p)
    (hfit : ("rabbitmqsource-" ++ src.Name ++ "-" ++ src.UID).length ≤ 63) :
    ∃ d, MakeReceiveAdapter args = some d ∧
      d.ObjectMeta.Name = "rabbitmqsource-" ++ src.Name ++ "-" ++ src.UID ∧
      ("rabbitmqsource-" ++ src.Name ++ "-").data <+: d.ObjectMeta.Name.data ∧
      src.UID.data <:+ d.ObjectMeta.Name.data ∧
      (src.Name = "s1" → src.UID = "u1" → d.ObjectMeta.Name = "rabbitmqsource-s1-u1") := by
  obtain ⟨name, hname, hd⟩ := MakeReceiveAdapter_descriptor args src p hs hp
  have hfit2 : ("rabbitmqsource-" ++ src.Name ++ "-").length + src.UID.length ≤ 63 := by
    rw [String.length_append] at hfit
    exact hfit
  rw [kmeta.ChildName_fits _ _ hfit2] at hname
  cases hname
  refine ⟨_, hd, rfl, ?_, ?_, ?_⟩
  · show ("rabbitmqsource-" ++ src.Name ++ "-").data <+:
      ("rabbitmqsource-" ++ src.Name ++ "-" ++ src.UID).data
    rw [String.data_append ("rabbitmqsource-" ++ src.Name ++ "-") src.UID]
    exact List.prefix_append _ _
  · show src.UID.data <:+ ("rabbitmqsource-" ++ src.Name ++ "-" ++ src.UID).data
    rw [String.data_append ("rabbitmqsource-" ++ src.Name ++ "-") src.UID]
    exact List.suffix_append _ _
  · intro hn hu
    show "rabbitmqsource-" ++ src.Name ++ "-" ++ src.UID = "rabbitmqsource-s1-u1"
    rw [hn, hu]
    rfl

/-- C12: the deployment has exactly one owner reference; its controller flag is true
and its name and UID are the name and UID of the source. -/
theorem owner_reference (args : ReceiveAdapterArgs) (src : RabbitmqSource)
    (p : Int) (hs : args.Source = some src)
    (hp : src.Spec.RabbitmqResourcesConfig.Parallelism = some p) :
    ∃ d ref, MakeReceiveAdapter args = some d ∧
      d.ObjectMeta.OwnerReferences = [ref] ∧
      ref.Controller = some true ∧ ref.Name = src.Name ∧ ref.UID = src.UID := by
  obtain ⟨name, _, hd⟩ := MakeReceiveAdapter_descriptor args src p hs hp
  exact ⟨_, kmeta.NewControllerRef src, hd, rfl, rfl, rfl, rfl⟩

/-- C13: the selector match-labels of the deployment equal the labels of its pod
template, and both equal args.Labels. -/
theorem label_symmetry (args : ReceiveAdapterArgs) (src : RabbitmqSource)
    (p : Int) (hs : args.Source = some src)
    (hp : src.Spec.RabbitmqResourcesConfig.Parallelism = some p) :
    ∃ d sel, MakeReceiveAdapter args = some d ∧
      d.Spec.Selector = some sel ∧
      sel.MatchLabels = d.Spec.Template.ObjectMeta.Labels ∧
      sel.MatchLabels = args.Labels ∧
      d.Spec.Template.ObjectMeta.Labels = args.Labels := by
  obtain ⟨name, _, hd⟩ := MakeReceiveAdapter_descriptor args src p hs hp
  exact ⟨_, { MatchLabels := args.Labels }, hd, rfl, rfl, rfl, rfl⟩

/-! ## Claims about the container and the descriptor as a whole -/

/-- C14: whatever the arguments, the requests of the container are exactly cpu 50m
and memory 64Mi and its limits exactly cpu 4000m and memory 600Mi (the quantities
`MustParse` reads from these four strings), with no other resource key. -/
theorem resource_envelope (args : ReceiveAdapterArgs) (src : RabbitmqSource)
    (p : Int) (hs : args.Source = some src)
    (hp : src.Spec.RabbitmqResourcesConfig.Parallelism = some p) :
    ∃ d c cpuRequest memoryRequest cpuLimit memoryLimit,
      MakeReceiveAdapter args = some d ∧
      d.Spec.Template.Spec.Containers = [c] ∧
      resource.MustParse "50m" = some cpuRequest ∧
      resource.MustParse "64Mi" = some memoryRequest ∧
      resource.MustParse "4000m" = some cpuLimit ∧
      resource.MustParse "600Mi" = some memoryLimit ∧
      c.Resources.Requests = [("cpu", cpuRequest), ("memory", memoryRequest)] ∧
      c.Resources.Limits = [("cpu", cpuLimit), ("memory", memoryLimit)] ∧
      cpuRequest = { milli := 50, format := resource.Format.DecimalSI } ∧
      memoryRequest = { milli := 64 * 2 ^ 20 * 1000, format := resource.Format.BinarySI } ∧
      cpuLimit = { milli := 4000, format := resource.Format.DecimalSI } ∧
      memoryLimit = { milli := 600 * 2 ^ 20 * 1000, format := resource.Format.BinarySI } := by
  obtain ⟨name, _, hd⟩ := MakeReceiveAdapter_descriptor args src p hs hp
  obtain ⟨h1, h2, h3, h4⟩ := resource.MustParse_consts
  exact ⟨_, _, _, _, _, _, hd, rfl, h1, h2, h3, h4, rfl, rfl, rfl, rfl, rfl, rfl⟩

/-- C18: the deployment has one replica, the namespace of the source, generate-name
source name + "-", a pod template annotated exactly with sidecar.istio.io/inject =
"true" and using the service account of the source, and exactly one container:
"receive-adapter", with image args.Image, pull policy "IfNotPresent", no ports, no
probes and no volume mounts; the pod declares no volumes. -/
theorem descriptor_fields (args : ReceiveAdapterArgs) (src : RabbitmqSource)
    (p : Int) (hs : args.Source = some src)
    (hp : src.Spec.RabbitmqResourcesConfig.Parallelism = some p) :
    ∃ d c, MakeReceiveAdapter args = some d ∧
      d.Spec.Replicas = some 1 ∧
      d.ObjectMeta.Namespace = src.Namespace ∧
      d.ObjectMeta.GenerateName = src.Name ++ "-" ∧
      d.Spec.Template.ObjectMeta.Annotations = [("sidecar.istio.io/inject", "true")] ∧
      d.Spec.Template.Spec.ServiceAccountName = src.Spec.ServiceAccountName ∧
      d.Spec.Template.Spec.Containers = [c] ∧
      c.Name = "receive-adapter" ∧
      c.Image = args.Image ∧
      c.ImagePullPolicy = "IfNotPresent" ∧
      c.Ports = [] ∧
      c.LivenessProbe = none ∧ c.ReadinessProbe = none ∧ c.StartupProbe = none ∧
      c.VolumeMounts = [] ∧
      d.Spec.Template.Spec.Volumes = [] := by
  obtain ⟨name, _, hd⟩ := MakeReceiveAdapter_descriptor args src p hs hp
  exact ⟨_, _, hd, rfl, rfl, rfl, rfl, rfl, rfl, rfl, rfl, rfl, rfl, rfl, rfl, rfl, rfl, rfl⟩

/-- C16: the translator is total on validated inputs and undefended otherwise. With a
non-nil source and a non-nil parallelism a descriptor is returned, for any delivery
block, any strings and any lengths of name and UID; with a non-nil source whose
parallelism is nil the call fails (a nil dereference) and returns nothing. -/
theorem translator_total (args : ReceiveAdapterArgs) (src : RabbitmqSource)
    (hs : args.Source = some src) :
    (∀ p, src.Spec.RabbitmqResourcesConfig.Parallelism = some p →
      ∃ d, MakeReceiveAdapter args = some d) ∧
    (src.Spec.RabbitmqResourcesConfig.Parallelism = none → MakeReceiveAdapter args = none) := by
  refine ⟨?_, ?_⟩
  · intro p hp
    obtain ⟨name, _, hd⟩ := MakeReceiveAdapter_descriptor args src p hs hp
    exact ⟨_, hd⟩
  · intro hp
    unfold MakeReceiveAdapter
    simp only [hs, hp, Option.bind_eq_bind, Option.some_bind, Option.none_bind]

/-! ## Claims about the values, the order and the names of the bindings -/

/-- The names of the delivery bindings. -/
theorem deliveryEnv_names (dl : Option DeliverySpec) :
    ∀ e ∈ deliveryEnv dl, e.Name = "HTTP_SENDER_RETRY" ∨
      e.Name = "HTTP_SENDER_BACKOFF_POLICY" ∨ e.Name = "HTTP_SENDER_BACKOFF_DELAY" := by
  intro e he
  rcases dl with _ | delivery
  · simp [deliveryEnv] at he
  · rcases hr : delivery.Retry with _ | r <;> rcases hb : delivery.BackoffPolicy with _ | b <;>
      rcases hy : delivery.BackoffDelay with _ | y <;>
      simp only [deliveryEnv, retryEnv, policyEnv, delayEnv, hr, hb, hy, List.nil_append,
        List.append_nil, List.cons_append, List.mem_cons, List.mem_singleton,
        List.mem_nil_iff, or_false] at he <;>
      first
        | (rcases he with h | h | h <;> simp [h])
        | (rcases he with h | h <;> simp [h])
        | simp [he]

/-- C15: the values of the base bindings are taken from their sources unchanged. The
first twelve bindings are RABBIT_URL (a secret reference), then
RABBITMQ_CHANNEL_PARALLELISM with the decimal numeral of the parallelism (1 gives
"1", 1000 gives "1000"), RABBITMQ_EXCHANGE_NAME and RABBITMQ_QUEUE_NAME with the
exchange and queue names, RABBITMQ_PREDECLARED with "true" or "false", SINK_URI and
K_SINK with the sink URI, NAME and NAMESPACE with the name and namespace of the
source, K_LOGGING_CONFIG and K_METRICS_CONFIG with the two configuration strings, and
RABBITMQ_VHOST with the vhost, empty or not; the bindings after them are delivery
bindings, so none of these names occurs again. -/
theorem base_binding_values (args : ReceiveAdapterArgs) (src : RabbitmqSource)
    (p : Int) (hs : args.Source = some src)
    (hp : src.Spec.RabbitmqResourcesConfig.Parallelism = some p) :
    ∃ d c, MakeReceiveAdapter args = some d ∧
      d.Spec.Template.Spec.Containers = [c] ∧
      c.Env.take 12 = [
        { Name := "RABBIT_URL",
          ValueFrom := some {
            SecretKeyRef := some {
              LocalObjectReference := { Name := args.RabbitMQSecretName },
              Key := args.BrokerUrlSecretKey } } },
        { Name := "RABBITMQ_CHANNEL_PARALLELISM", Value := toString p },
        { Name := "RABBITMQ_EXCHANGE_NAME",
          Value := src.Spec.RabbitmqResourcesConfig.ExchangeName },
        { Name := "RABBITMQ_QUEUE_NAME", Value := src.Spec.RabbitmqResourcesConfig.QueueName },
        { Name := "RABBITMQ_PREDECLARED",
          Value := if src.Spec.RabbitmqResourcesConfig.Predeclared then "true" else "false" },
        { Name := "SINK_URI", Value := args.SinkURI },
        { Name := "K_SINK", Value := args.SinkURI },
        { Name := "NAME", Value := src.Name },
        { Name := "NAMESPACE", Value := src.Namespace },
        { Name := "K_LOGGING_CONFIG", Value := args.LoggingConfig },
        { Name := "K_METRICS_CONFIG", Value := args.MetricsConfig },
        { Name := "RABBITMQ_VHOST", Value := src.Spec.RabbitmqResourcesConfig.Vhost } ] ∧
      (∀ e ∈ c.Env.drop 12, e.Name = "HTTP_SENDER_RETRY" ∨
        e.Name = "HTTP_SENDER_BACKOFF_POLICY" ∨ e.Name = "HTTP_SENDER_BACKOFF_DELAY") ∧
      toString (1 : Int) = "1" ∧ toString (1000 : Int) = "1000" := by
  obtain ⟨d, c, _, hd, hc, henv, _, _⟩ := MakeReceiveAdapter_valid args src p hs hp
  have hlen : (baseEnv args src p).length = 12 := rfl
  refine ⟨d, c, hd, hc, ?_, ?_, by decide, by decide⟩
  · rw [henv, List.take_append_of_le_length (le_of_eq hlen.symm),
      List.take_of_length_le (le_of_eq hlen)]
    have hi : strconv.Itoa p = toString p := strconv.FormatInt_ten p
    simp only [baseEnv, hi, strconv.FormatBool]
  · rw [henv, List.drop_append_of_le_length (le_of_eq hlen.symm),
      List.drop_of_length_le (le_of_eq hlen), List.nil_append]
    exact deliveryEnv_names _

/-- C19: the delivery bindings come after the twelve base bindings, in the order
HTTP_SENDER_RETRY, HTTP_SENDER_BACKOFF_POLICY, HTTP_SENDER_BACKOFF_DELAY: with a
delivery block the environment has 12 + (1 if Retry is set) + 1 + (1 if BackoffDelay
is set) bindings. A non-nil empty block adds exactly one binding,
HTTP_SENDER_BACKOFF_POLICY = "exponential", as the thirteenth entry; the block with
retry 3, policy linear and delay PT2S adds exactly three. -/
theorem delivery_bindings_appended (args : ReceiveAdapterArgs) (src : RabbitmqSource)
    (p : Int) (hs : args.Source = some src)
    (hp : src.Spec.RabbitmqResourcesConfig.Parallelism = some p) :
    ∃ d c, MakeReceiveAdapter args = some d ∧
      d.Spec.Template.Spec.Containers = [c] ∧
      (c.Env.map EnvVar.Name).take 12 =
        ["RABBIT_URL", "RABBITMQ_CHANNEL_PARALLELISM", "RABBITMQ_EXCHANGE_NAME",
         "RABBITMQ_QUEUE_NAME", "RABBITMQ_PREDECLARED", "SINK_URI", "K_SINK", "NAME",
         "NAMESPACE", "K_LOGGING_CONFIG", "K_METRICS_CONFIG", "RABBITMQ_VHOST"] ∧
      (∀ delivery, src.Spec.Delivery = some delivery →
        (c.Env.map EnvVar.Name).drop 12 =
          (if delivery.Retry.isSome then ["HTTP_SENDER_RETRY"] else []) ++
          ["HTTP_SENDER_BACKOFF_POLICY"] ++
          (if delivery.BackoffDelay.isSome then ["HTTP_SENDER_BACKOFF_DELAY"] else []) ∧
        c.Env.length = 12 + (if delivery.Retry.isSome then 1 else 0) + 1 +
          (if delivery.BackoffDelay.isSome then 1 else 0)) ∧
      (src.Spec.Delivery = some {} →
        c.Env.drop 12 =
          [{ Name := "HTTP_SENDER_BACKOFF_POLICY", Value := "exponential" }] ∧
        c.Env.length = 13) ∧
      (src.Spec.Delivery =
          some { Retry := some 3, BackoffPolicy := some "linear", BackoffDelay := some "PT2S" } →
        (c.Env.map EnvVar.Name).drop 12 =
          ["HTTP_SENDER_RETRY", "HTTP_SENDER_BACKOFF_POLICY", "HTTP_SENDER_BACKOFF_DELAY"] ∧
        c.Env.length = 15) := by
  obtain ⟨d, c, _, hd, hc, henv, _, _⟩ := MakeReceiveAdapter_valid args src p hs hp
  refine ⟨d, c, hd, hc, ?_, ?_, ?_, ?_⟩
  · rw [henv]; simp [baseEnv]
  · intro delivery hdel
    rw [henv, hdel]
    rcases hr : delivery.Retry with _ | r <;> rcases hb : delivery.BackoffPolicy with _ | b <;>
      rcases hy : delivery.BackoffDelay with _ | y <;>
      simp [baseEnv, deliveryEnv, retryEnv, policyEnv, delayEnv, hr, hb, hy]
  · intro hdel
    rw [henv, hdel]
    simp [baseEnv, deliveryEnv, retryEnv, policyEnv, delayEnv]
  · intro hdel
    rw [henv, hdel]
    simp [baseEnv, deliveryEnv, retryEnv, policyEnv, delayEnv]

/-- C20: the names of the environment bindings are pairwise distinct, whichever
delivery sub-fields are set. -/
theorem env_names_distinct (args : ReceiveAdapterArgs) (src : RabbitmqSource)
    (p : Int) (hs : args.Source = some src)
    (hp : src.Spec.RabbitmqResourcesConfig.Parallelism = some p) :
    ∃ d c, MakeReceiveAdapter args = some d ∧
      d.Spec.Template.Spec.Containers = [c] ∧
      (c.Env.map EnvVar.Name).Nodup := by
  obtain ⟨d, c, _, hd, hc, henv, _, _⟩ := MakeReceiveAdapter_valid args src p hs hp
  refine ⟨d, c, hd, hc, ?_⟩
  rw [henv]
  rcases hdel : src.Spec.Delivery with _ | delivery
  · simp [baseEnv, deliveryEnv]
  · rcases hr : delivery.Retry with _ | r <;> rcases hb : delivery.BackoffPolicy with _ | b <;>
      rcases hy : delivery.BackoffDelay with _ | y <;>
      simp [baseEnv, deliveryEnv, retryEnv, policyEnv, delayEnv, hr, hb, hy]

/-! ## The further claims at the scenarios of the spec -/

/-- Scenario 1: the name is "rabbitmqsource-s1-u1"; it starts with
"rabbitmqsource-s1-" and contains "u1". -/
theorem workload_name_within_bound_scenario :
    ∃ d, MakeReceiveAdapter (scenarioArgs none) = some d ∧
      d.ObjectMeta.Name = "rabbitmqsource-s1-u1" ∧
      "rabbitmqsource-s1-".data <+: d.ObjectMeta.Name.data ∧
      "u1".data <:+: d.ObjectMeta.Name.data := by
  obtain ⟨d, hd, _, hpre, hsuf, hname⟩ :=
    workload_name_within_bound (scenarioArgs none) (scenarioSource none) 1 rfl rfl (by decide)
  exact ⟨d, hd, hname rfl rfl, hpre, hsuf.isInfix⟩

/-- Scenario 1: one owner reference, a controller reference to source `s1` with UID `u1`. -/
theorem owner_reference_scenario :
    ∃ d ref, MakeReceiveAdapter (scenarioArgs none) = some d ∧
      d.ObjectMeta.OwnerReferences = [ref] ∧
      ref.Controller = some true ∧ ref.Name = "s1" ∧ ref.UID = "u1" :=
  owner_reference (scenarioArgs none) (scenarioSource none) 1 rfl rfl

/-- Labelled arguments: selector and pod template carry the two labels of the caller. -/
theorem label_symmetry_scenario :
    ∃ d sel, MakeReceiveAdapter labelledArgs = some d ∧
      d.Spec.Selector = some sel ∧
      sel.MatchLabels = d.Spec.Template.ObjectMeta.Labels ∧
      sel.MatchLabels = [("app", "rabbitmq-source"), ("source", "s1")] ∧
      d.Spec.Template.ObjectMeta.Labels = [("app", "rabbitmq-source"), ("source", "s1")] :=
  label_symmetry labelledArgs labelledSource 1 rfl rfl

/-- Scenario 6 (parallelism 1000): the resource envelope is the constant one. -/
theorem resource_envelope_scenario :
    ∃ d c, MakeReceiveAdapter highParallelismArgs = some d ∧
      d.Spec.Template.Spec.Containers = [c] ∧
      c.Resources.Requests =
        [("cpu", { milli := 50, format := resource.Format.DecimalSI }),
         ("memory", { milli := 64 * 2 ^ 20 * 1000, format := resource.Format.BinarySI })] ∧
      c.Resources.Limits =
        [("cpu", { milli := 4000, format := resource.Format.DecimalSI }),
         ("memory", { milli := 600 * 2 ^ 20 * 1000, format := resource.Format.BinarySI })] := by
  obtain ⟨d, c, q1, q2, q3, q4, hd, hc, _, _, _, _, hreq, hlim, e1, e2, e3, e4⟩ :=
    resource_envelope highParallelismArgs highParallelismSource 1000 rfl rfl
  refine ⟨d, c, hd, hc, ?_, ?_⟩
  · rw [hreq, e1, e2]
  · rw [hlim, e3, e4]

/-- Scenario 6 (parallelism 1000): the values of the twelve base bindings. -/
theorem base_binding_values_scenario :
    ∃ d c, MakeReceiveAdapter highParallelismArgs = some d ∧
      d.Spec.Template.Spec.Containers = [c] ∧
      c.Env.take 12 = [
        { Name := "RABBIT_URL",
          ValueFrom := some {
            SecretKeyRef := some { LocalObjectReference := { Name := "sec" }, Key := "url" } } },
        { Name := "RABBITMQ_CHANNEL_PARALLELISM", Value := "1000" },
        { Name := "RABBITMQ_EXCHANGE_NAME", Value := "e" },
        { Name := "RABBITMQ_QUEUE_NAME", Value := "q" },
        { Name := "RABBITMQ_PREDECLARED", Value := "false" },
        { Name := "SINK_URI", Value := "http://sink/" },
        { Name := "K_SINK", Value := "http://sink/" },
        { Name := "NAME", Value := "s1" },
        { Name := "NAMESPACE", Value := "ns" },
        { Name := "K_LOGGING_CONFIG", Value := "" },
        { Name := "K_METRICS_CONFIG", Value := "" },
        { Name := "RABBITMQ_VHOST", Value := "" } ] := by
  obtain ⟨d, c, hd, hc, henv, _⟩ :=
    base_binding_values highParallelismArgs highParallelismSource 1000 rfl rfl
  exact ⟨d, c, hd, hc, henv⟩

/-- Scenario 1 returns a descriptor; with a nil parallelism pointer nothing is returned. -/
theorem translator_total_scenario :
    (∃ d, MakeReceiveAdapter (scenarioArgs none) = some d) ∧
    MakeReceiveAdapter nilParallelismArgs = none :=
  ⟨(translator_total (scenarioArgs none) (scenarioSource none) rfl).1 1 rfl,
   (translator_total nilParallelismArgs nilParallelismSource rfl).2 rfl⟩

/-- Labelled arguments: the fixed fields of the descriptor. -/
theorem descriptor_fields_scenario :
    ∃ d c, MakeReceiveAdapter labelledArgs = some d ∧
      d.Spec.Replicas = some 1 ∧
      d.ObjectMeta.Namespace = "ns" ∧
      d.ObjectMeta.GenerateName = "s1-" ∧
      d.Spec.Template.ObjectMeta.Annotations = [("sidecar.istio.io/inject", "true")] ∧
      d.Spec.Template.Spec.ServiceAccountName = "sa" ∧
      d.Spec.Template.Spec.Containers = [c] ∧
      c.Name = "receive-adapter" ∧
      c.Image = "example.com/receive-adapter:v1" ∧
      c.ImagePullPolicy = "IfNotPresent" ∧
      c.Ports = [] ∧
      c.LivenessProbe = none ∧ c.ReadinessProbe = none ∧ c.StartupProbe = none ∧
      c.VolumeMounts = [] ∧
      d.Spec.Template.Spec.Volumes = [] :=
  descriptor_fields labelledArgs labelledSource 1 rfl rfl

/-- Scenario 2 (empty block) adds one binding; scenario 3 (full block) adds three. -/
theorem delivery_bindings_appended_scenario :
    (∃ d c, MakeReceiveAdapter (scenarioArgs (some {})) = some d ∧
      d.Spec.Template.Spec.Containers = [c] ∧
      c.Env.drop 12 = [{ Name := "HTTP_SENDER_BACKOFF_POLICY", Value := "exponential" }] ∧
      c.Env.length = 13) ∧
    (∃ d c, MakeReceiveAdapter (scenarioArgs (some fullDelivery)) = some d ∧
      d.Spec.Template.Spec.Containers = [c] ∧
      (c.Env.map EnvVar.Name).drop 12 =
        ["HTTP_SENDER_RETRY", "HTTP_SENDER_BACKOFF_POLICY", "HTTP_SENDER_BACKOFF_DELAY"] ∧
      c.Env.length = 15) := by
  obtain ⟨d, c, hd, hc, _, _, h, _⟩ :=
    delivery_bindings_appended (scenarioArgs (some {})) (scenarioSource (some {})) 1 rfl rfl
  obtain ⟨d2, c2, hd2, hc2, _, _, _, h2⟩ :=
    delivery_bindings_appended (scenarioArgs (some fullDelivery))
      (scenarioSource (some fullDelivery)) 1 rfl rfl
  exact ⟨⟨d, c, hd, hc, h rfl⟩, ⟨d2, c2, hd2, hc2, h2 rfl⟩⟩

/-- Scenario 3 (full block): the fifteen names are pairwise distinct. -/
theorem env_names_distinct_scenario :
    ∃ d c, MakeReceiveAdapter (scenarioArgs (some fullDelivery)) = some d ∧
      d.Spec.Template.Spec.Containers = [c] ∧
      (c.Env.map EnvVar.Name).Nodup :=
  env_names_distinct (scenarioArgs (some fullDelivery)) (scenarioSource (some fullDelivery)) 1
    rfl rfl
